import Mathlib

/-!
Shallow embedding of the pyrad-server RADIUS policy engine
(src/pyrad_server/radius/{matching,pools,replies,backend}.py,
src/pyrad_server/storage/redis_store.py, src/pyrad_server/udp/server.py),
together with theorems settling the specification claims.

Modelling conventions:
* Python attribute values are `PyVal` (str / int / bytes / None); other
  Python value kinds do not occur in the modelled configurations.
* Exceptions raised by duck-typed packet objects are modelled with
  `Except Unit`; code paths that never catch are modelled as total
  functions over the well-behaved `Packet` shape (pyrad packets expose a
  non-empty value list for every present attribute).
* `re.search` over a pattern and a subject string is kept abstract as a
  boolean function `search : String → String → Bool` (pattern first),
  since the rule-engine claims are independent of the regex language.
* `random.shuffle`, `uuid.uuid4`, the wall clock and the canonical string
  form of an IPv6 network are kept abstract as explicit parameters.
-/

/-- A Python attribute value as it occurs in packets and reply templates:
a str, an int, a bytes object, or None. -/
inductive PyVal where
  | str (s : String)
  | int (i : Int)
  | bytes (b : List Nat)
  | pnone
deriving DecidableEq, Repr

/-- One hex digit (lower case), for Python's `bytes.hex()`. -/
def hexDigit (n : Nat) : Char :=
  if n < 10 then Char.ofNat (48 + n) else Char.ofNat (87 + n)

/-- Python `bytes.hex()`: two lower-case hex digits per byte, no prefix. -/
def bytesHex (b : List Nat) : String :=
  String.mk (b.foldr (fun byte acc => hexDigit (byte / 16 % 16) :: hexDigit (byte % 16) :: acc) [])

/-- Escape of one byte inside Python's `repr` of a bytes object with
quote character `q`. -/
def pyByteEscape (q : Nat) (b : Nat) : List Char :=
  if b = 92 then ['\\', '\\']
  else if b = q then ['\\', Char.ofNat b]
  else if b = 9 then ['\\', 't']
  else if b = 10 then ['\\', 'n']
  else if b = 13 then ['\\', 'r']
  else if 32 ≤ b ∧ b ≤ 126 then [Char.ofNat b]
  else ['\\', 'x', hexDigit (b / 16 % 16), hexDigit (b % 16)]

/-- Python `repr` of a bytes object (which is `str(value)` for bytes):
quoted with `'`, or with `"` when the bytes contain `'` but no `"`. -/
def pyBytesRepr (b : List Nat) : String :=
  let q : Nat := if b.contains 39 ∧ ¬ b.contains 34 then 34 else 39
  String.mk ('b' :: Char.ofNat q :: (b.foldr (fun byte acc => pyByteEscape q byte ++ acc) [Char.ofNat q]))

/-- Python `str(value)` for the modelled value kinds. -/
def pyStr (v : PyVal) : String :=
  match v with
  | .str s => s
  | .int i => toString i
  | .bytes b => pyBytesRepr b
  | .pnone => "None"

/-- Association-list lookup, modelling Python `dict` lookup (first binding
wins; the modelled dicts have unique keys). -/
def lookupA {α : Type} : List (String × α) → String → Option α
  | [], _ => none
  | (k, v) :: rest, key => if k = key then some v else lookupA rest key

/-- Association-list update of the first binding of a key, modelling
in-place mutation of a Python dict entry. -/
def updateA {α : Type} : List (String × α) → String → α → List (String × α)
  | [], _, _ => []
  | (k, v) :: rest, key, value =>
    if k = key then (k, value) :: rest else (k, v) :: updateA rest key value

/-! ### Duck-typed request objects (radius/matching.py `_first_attr_value`) -/

/-- A duck-typed value sequence as `_first_attr_value` uses it: Python
truthiness (`not values`) and indexing `values[0]`, the latter allowed to
raise. -/
structure PyValues (V : Type) where
  isEmpty : Bool
  first : Except Unit V

/-- A duck-typed request as the match engine accesses it: a containment
test (`attr in request`) and an item lookup (`request[attr]`), both
allowed to raise. -/
structure PyRequest (V : Type) where
  contains : String → Except Unit Bool
  getItem : String → Except Unit (PyValues V)

/-- `_first_attr_value` (radius/matching.py): the first value of an
attribute, `none` when the attribute is missing, the value list is empty,
or the containment test, the lookup or the indexing raises. -/
def first_attr_value {V : Type} (request : PyRequest V) (attr : String) : Option V :=
  match request.contains attr with
  | .error _ => none
  | .ok false => none
  | .ok true =>
    match request.getItem attr with
    | .error _ => none
    | .ok values =>
      if values.isEmpty then none
      else
        match values.first with
        | .error _ => none
        | .ok v => some v

/-! ### Match engine (radius/matching.py) -/

/-- A predicate rule: the (attribute, regex pattern) pairs of one
single-key-mapped predicate, in insertion order. -/
abbrev PredicateRule := List (String × String)

/-- A rule group `{"target": [predicate, ...]}`, already unpacked into its
single target key and its ordered predicate list (`_unpack_group`). -/
structure RuleGroup where
  target : String
  predicates : List PredicateRule

/-- `rule_matches` (radius/matching.py): a rule matches if all
(attribute, pattern) pairs match, a pair matching when the request
exposes the attribute and `re.search (pattern, str value)` succeeds. -/
def rule_matches {V : Type} (search : String → String → Bool) (toStr : V → String)
    (rule : PredicateRule) (request : PyRequest V) : Bool :=
  rule.all fun ap =>
    match first_attr_value request ap.1 with
    | none => false
    | some v => search ap.2 (toStr v)

/-- `match_rules` (radius/matching.py): evaluate an ordered ruleset and
return the first matching target, a group with an empty predicate list
being a catch-all, else the default. -/
def match_rules {V : Type} (search : String → String → Bool) (toStr : V → String)
    (rules : List RuleGroup) (request : PyRequest V) (default : String) : String :=
  match rules with
  | [] => default
  | group :: rest =>
    if group.predicates.isEmpty then group.target
    else if group.predicates.any (fun p => rule_matches search toStr p request) then group.target
    else match_rules search toStr rest request default

/-- Specification-side reading of the rule engine: a group matches when
its predicate list is empty (catch-all) or some predicate matches. -/
def group_matches {V : Type} (search : String → String → Bool) (toStr : V → String)
    (group : RuleGroup) (request : PyRequest V) : Bool :=
  group.predicates.isEmpty || group.predicates.any (fun p => rule_matches search toStr p request)

/-- Specification-side reading of `match_rules`: the target of the first
group that matches, or the default when none does. -/
def first_match_spec {V : Type} (search : String → String → Bool) (toStr : V → String)
    (rules : List RuleGroup) (request : PyRequest V) (default : String) : String :=
  match rules.find? (fun g => group_matches search toStr g request) with
  | some g => g.target
  | none => default

/-- `MatchEngine` (radius/matching.py): the three rule sets. -/
structure MatchEngine where
  pool_match_rules : List RuleGroup
  reply_match_rules_auth : List RuleGroup
  reply_match_rules_acct : List RuleGroup

/-- `MatchEngine.select_pool`. -/
def MatchEngine.select_pool {V : Type} (search : String → String → Bool) (toStr : V → String)
    (e : MatchEngine) (request : PyRequest V) (default : String) : String :=
  match_rules search toStr e.pool_match_rules request default

/-- `MatchEngine.select_reply`: dispatch on the category string, raising
`ValueError` (modelled as `Except.error`) for an unknown category. -/
def MatchEngine.select_reply {V : Type} (search : String → String → Bool) (toStr : V → String)
    (e : MatchEngine) (category : String) (request : PyRequest V) (default : String) :
    Except Unit String :=
  if category = "auth" then .ok (match_rules search toStr e.reply_match_rules_auth request default)
  else if category = "acct" then .ok (match_rules search toStr e.reply_match_rules_acct request default)
  else .error ()

/-! ### Well-behaved packets (the pyrad packet shape the backend and the
dialog store consume: `code`, `id`, ordered attributes, each present
attribute holding a non-empty list of values). -/

/-- A pyrad-like packet: `code`, `id`, and ordered attributes, each with
its first value and the remaining values. -/
structure Packet where
  code : Nat
  id : Nat
  attrs : List (String × PyVal × List PyVal)

/-- All values of an attribute (head and tail of `packet[attr]`). -/
def Packet.getValues (p : Packet) (attr : String) : Option (PyVal × List PyVal) :=
  lookupA (p.attrs.map fun e => (e.1, e.2)) attr

/-- `packet[attr][0]` for a present attribute. -/
def Packet.firstValue (p : Packet) (attr : String) : Option PyVal :=
  (p.getValues attr).map (·.1)

/-- The attribute names of a packet in order (`packet.keys()`). -/
def Packet.keysList (p : Packet) : List String :=
  p.attrs.map (·.1)

/-- View a packet through the duck-typed request interface: containment
never raises, lookup of a missing key raises `KeyError`, present value
lists are non-empty and index 0 never raises. -/
def Packet.toPy (p : Packet) : PyRequest PyVal where
  contains := fun attr => .ok (p.getValues attr).isSome
  getItem := fun attr =>
    match p.getValues attr with
    | some (v, _) => .ok { isEmpty := false, first := .ok v }
    | none => .error ()

/-! ### Address pools (radius/pools.py) -/

/-- Dotted-quad string form of an IPv4 address (Python `str(IPv4Address)`
for addresses below 2^32). -/
def ipv4ToString (n : Nat) : String :=
  toString (n / 2 ^ 24 % 256) ++ "." ++ toString (n / 2 ^ 16 % 256) ++ "." ++
    toString (n / 2 ^ 8 % 256) ++ "." ++ toString (n % 256)

/-- `PoolRuntime` (radius/pools.py): the runtime representation of an
address pool; IPv4 host addresses are modelled by their numeric value,
IPv6 prefixes by their string form. -/
structure PoolRuntime where
  shuffle : Bool
  ipv4 : List Nat
  ipv6 : List String
  ipv6_delegated : List String

/-- `PoolRuntime.allocate_ipv4`: `none` when the list is empty, otherwise
pop the head and return its string form. -/
def PoolRuntime.allocate_ipv4 (p : PoolRuntime) : Option String × PoolRuntime :=
  match p.ipv4 with
  | [] => (none, p)
  | a :: rest => (some (ipv4ToString a), { p with ipv4 := rest })

/-- `PoolRuntime.allocate_ipv6`. -/
def PoolRuntime.allocate_ipv6 (p : PoolRuntime) : Option String × PoolRuntime :=
  match p.ipv6 with
  | [] => (none, p)
  | a :: rest => (some a, { p with ipv6 := rest })

/-- `PoolRuntime.allocate_ipv6_delegated`. -/
def PoolRuntime.allocate_ipv6_delegated (p : PoolRuntime) : Option String × PoolRuntime :=
  match p.ipv6_delegated with
  | [] => (none, p)
  | a :: rest => (some a, { p with ipv6_delegated := rest })

/-- `PoolRuntime.restore_ipv4`: append to the tail (the address argument
is modelled after parsing by `IPv4Address`). -/
def PoolRuntime.restore_ipv4 (p : PoolRuntime) (address : Nat) : PoolRuntime :=
  { p with ipv4 := p.ipv4 ++ [address] }

/-- `PoolRuntime.restore_ipv6`. -/
def PoolRuntime.restore_ipv6 (p : PoolRuntime) (pfx : String) : PoolRuntime :=
  { p with ipv6 := p.ipv6 ++ [pfx] }

/-- `PoolRuntime.restore_ipv6_delegated`. -/
def PoolRuntime.restore_ipv6_delegated (p : PoolRuntime) (pfx : String) : PoolRuntime :=
  { p with ipv6_delegated := p.ipv6_delegated ++ [pfx] }

/-- One operation on a pool runtime, for stating invariants over
operation sequences. -/
inductive PoolOp where
  | allocV4
  | allocV6
  | allocV6d
  | restoreV4 (address : Nat)
  | restoreV6 (pfx : String)
  | restoreV6d (pfx : String)
deriving DecidableEq

/-- Apply one pool operation (the state part of the calls above). -/
def PoolRuntime.applyOp (p : PoolRuntime) : PoolOp → PoolRuntime
  | .allocV4 => p.allocate_ipv4.2
  | .allocV6 => p.allocate_ipv6.2
  | .allocV6d => p.allocate_ipv6_delegated.2
  | .restoreV4 a => p.restore_ipv4 a
  | .restoreV6 s => p.restore_ipv6 s
  | .restoreV6d s => p.restore_ipv6_delegated s

/-- Apply a sequence of pool operations in order. -/
def PoolRuntime.applyOps (p : PoolRuntime) (ops : List PoolOp) : PoolRuntime :=
  ops.foldl PoolRuntime.applyOp p

/-- The value returned by the (k+1)-th successive `allocate_ipv4` call. -/
def PoolRuntime.allocN4 (p : PoolRuntime) : Nat → Option String
  | 0 => p.allocate_ipv4.1
  | k + 1 => p.allocate_ipv4.2.allocN4 k

/-- The value returned by the (k+1)-th successive `allocate_ipv6` call. -/
def PoolRuntime.allocN6 (p : PoolRuntime) : Nat → Option String
  | 0 => p.allocate_ipv6.1
  | k + 1 => p.allocate_ipv6.2.allocN6 k

/-- The value returned by the (k+1)-th successive
`allocate_ipv6_delegated` call. -/
def PoolRuntime.allocN6d (p : PoolRuntime) : Nat → Option String
  | 0 => p.allocate_ipv6_delegated.1
  | k + 1 => p.allocate_ipv6_delegated.2.allocN6d k

/-- An IPv4 network in CIDR form: base address and prefix length
(the base is aligned and below 2^32 for validated configs). -/
structure IPv4Net where
  addr : Nat
  plen : Nat

/-- An IPv6 network in CIDR form. -/
structure IPv6Net where
  addr : Nat
  plen : Nat

/-- Modelled from Python `ipaddress.IPv4Network.hosts()`: the usable host
addresses of a network in ascending order; a /32 yields its single
address, a /31 both endpoint addresses, anything wider all addresses
except the network and broadcast addresses. -/
def IPv4Net.hosts (net : IPv4Net) : List Nat :=
  if net.plen ≥ 32 then [net.addr]
  else if net.plen = 31 then [net.addr, net.addr + 1]
  else (List.range (2 ^ (32 - net.plen) - 2)).map (fun i => net.addr + 1 + i)

/-- `_expand_ipv4_hosts` (radius/pools.py): concatenate the host
addresses of each network in order. -/
def expand_ipv4_hosts : List IPv4Net → List Nat
  | [] => []
  | net :: rest => net.hosts ++ expand_ipv4_hosts rest

/-- Modelled from Python `IPv6Network.subnets(new_prefix=np)`: the
subnets of the given length in ascending order. -/
def IPv6Net.subnets (net : IPv6Net) (np : Nat) : List IPv6Net :=
  (List.range (2 ^ (np - net.plen))).map (fun i => ⟨net.addr + i * 2 ^ (128 - np), np⟩)

/-- `_expand_ipv6_prefixes` (radius/pools.py): keep networks at least as
specific as the target length, split wider ones into subnets of the
target length. -/
def expand_ipv6_pfxs (np : Nat) : List IPv6Net → List IPv6Net
  | [] => []
  | net :: rest =>
    (if net.plen > np then [net]
     else if net.plen = np then [net]
     else net.subnets np) ++ expand_ipv6_pfxs np rest

/-- `AddressPool` (config/schema.py): the validated pool configuration. -/
structure AddressPool where
  shuffle : Bool
  ipv4 : List IPv4Net
  ipv6 : List IPv6Net
  ipv6_delegated : List IPv6Net

/-- The ambient nondeterminism of pool construction: the string form of
an IPv6 network (Python `str`) and the permutations chosen by
`random.shuffle` for the three sequences, kept abstract. -/
structure PoolEnv where
  v6str : IPv6Net → String
  shuffle4 : List Nat → List Nat
  shuffle6 : List String → List String
  shuffle6d : List String → List String

/-- `PoolRuntime.from_config` (radius/pools.py): expand IPv4 hosts and
IPv6 /64 and /56 prefixes from the configured networks and shuffle the
three sequences when the pool requests it. -/
def PoolRuntime.from_config (env : PoolEnv) (pool : AddressPool) : PoolRuntime :=
  let ipv4_hosts := expand_ipv4_hosts pool.ipv4
  let ipv6_pfx_strs := (expand_ipv6_pfxs 64 pool.ipv6).map env.v6str
  let ipv6_delegated := (expand_ipv6_pfxs 56 pool.ipv6_delegated).map env.v6str
  if pool.shuffle then
    { shuffle := true
      ipv4 := env.shuffle4 ipv4_hosts
      ipv6 := env.shuffle6 ipv6_pfx_strs
      ipv6_delegated := env.shuffle6d ipv6_delegated }
  else
    { shuffle := false
      ipv4 := ipv4_hosts
      ipv6 := ipv6_pfx_strs
      ipv6_delegated := ipv6_delegated }

/-! ### Character-level models of the Python str methods used by the
reply builder (structurally recursive, so that concrete instances
evaluate inside the kernel). -/

/-- Python `s[n:]`. -/
def pyDrop (s : String) (n : Nat) : String := String.mk (s.data.drop n)

/-- Python `s.startswith(t)`. -/
def pyStartsWith (s t : String) : Bool := t.data.isPrefixOf s.data

/-- Python `s.strip()` (ASCII whitespace). -/
def pyStrip (s : String) : String :=
  String.mk (((s.data.dropWhile Char.isWhitespace).reverse.dropWhile Char.isWhitespace).reverse)

/-- Python `s.lower()` (over the ASCII range of the modelled values). -/
def pyLower (s : String) : String := String.mk (s.data.map Char.toLower)

/-- Python `s.upper()` (over the ASCII range of the modelled values). -/
def pyUpper (s : String) : String := String.mk (s.data.map Char.toUpper)

/-- Python `value.split(sep)` for a non-empty separator, character by
character; the fuel argument bounds the scan and `l.length` suffices. -/
def pySplitAux (sep : List Char) : Nat → List Char → List (List Char)
  | _, [] => [[]]
  | 0, l => [l]
  | fuel + 1, c :: rest =>
    if sep.isPrefixOf (c :: rest) then
      [] :: pySplitAux sep fuel ((c :: rest).drop sep.length)
    else
      match pySplitAux sep fuel rest with
      | [] => [[c]]
      | h :: t => (c :: h) :: t

/-- Python `value.split(sep)` for a non-empty separator. -/
def pySplit (value sep : String) : List String :=
  (pySplitAux sep.data value.data.length value.data).map String.mk

/-! ### Reply builder (radius/replies.py) -/

/-- The default `pool_exhausted_message` of `build_attributes`. -/
def pool_exhausted_message : String := "IP Address in pool is exhausted"

/-- An ordered reply attribute map. -/
abbrev Attrs := List (String × PyVal)

/-- One character of the regex class `[A-Za-z0-9\-_]` of
`_from_request`. -/
def isAttrChar (c : Char) : Bool :=
  ('A' ≤ c && c ≤ 'Z') || ('a' ≤ c && c ≤ 'z') || ('0' ≤ c && c ≤ '9') || c = '-' || c = '_'

/-- The regex `^fromRequest\.([A-Za-z0-9\-_]+)(.*)$` of `_from_request`
applied to a stripped directive: the attribute is the maximal leading
run of attribute characters after `fromRequest.`, the suffix the rest;
there is no match when the attribute part is empty or when the suffix
contains a newline (`.` does not match a newline and the stripped
directive cannot end in one). -/
def parse_from_request (directive : String) : Option (String × String) :=
  if pyStartsWith directive "fromRequest." then
    let rest := directive.data.drop 12
    let attr := rest.takeWhile isAttrChar
    if attr.isEmpty then none
    else
      let sfx := rest.drop attr.length
      if sfx.contains '\n' then none else some (String.mk attr, String.mk sfx)
  else none

/-- Numeric value of a list of decimal digit characters. -/
def digitsToNat (cs : List Char) : Nat :=
  cs.foldl (fun acc c => acc * 10 + (c.toNat - 48)) 0

/-- Parse `<digits>]` at the very end of the suffix (the `\d+`
followed by the closing bracket of `_SPLIT_INDEX_RE`). -/
def parseDigitsClose (cs : List Char) : Option Nat :=
  let digits := cs.takeWhile Char.isDigit
  if digits.isEmpty then none
  else
    match cs.drop digits.length with
    | [']'] => some (digitsToNat digits)
    | _ => none

/-- Parse the index part `(-?\d+)\]` at the end of the suffix. -/
def parseIdxClose (cs : List Char) : Option Int :=
  match cs with
  | '-' :: rest => (parseDigitsClose rest).map (fun n => -(n : Int))
  | _ => (parseDigitsClose cs).map (fun n => (n : Int))

/-- Parse `)\[(-?\d+)\]` after the closing quote of the separator. -/
def parseTailIdx (cs : List Char) : Option Int :=
  match cs with
  | ')' :: '[' :: rest => parseIdxClose rest
  | _ => none

/-- The lazy scan of `(?P<q>['"])(?P<sep>.*?)(?P=q)\)\[...\]`: the
separator ends at the earliest quote character whose tail parses as
`)[idx]`; a newline cannot be part of the separator. -/
def scanSep (q : Char) : List Char → List Char → Option (String × Int)
  | _, [] => none
  | acc, c :: rest =>
    if c = q then
      match parseTailIdx rest with
      | some idx => some (String.mk acc.reverse, idx)
      | none => if c = '\n' then none else scanSep q (c :: acc) rest
    else if c = '\n' then none
    else scanSep q (c :: acc) rest

/-- `_SPLIT_INDEX_RE.fullmatch`: `.split('<sep>')[<idx>]` with a single-
or double-quoted separator and a signed integer index. -/
def parse_split_suffix (s : String) : Option (String × Int) :=
  if pyStartsWith s ".split(" then
    match s.data.drop 7 with
    | q :: tail => if q = '\'' || q = '"' then scanSep q [] tail else none
    | [] => none
  else none

/-- Python sequence indexing with a possibly negative index
(`parts[idx]`), `none` on `IndexError`. -/
def pyIndex (parts : List String) (idx : Int) : Option String :=
  if 0 ≤ idx then parts.get? idx.toNat
  else
    let j : Int := idx + parts.length
    if j < 0 then none else parts.get? j.toNat

/-- `_apply_safe_transform` (radius/replies.py): the empty suffix is the
identity, `.lower()` and `.upper()` fold case, `.split('<sep>')[<idx>]`
splits by the literal separator and indexes (an empty separator raises
`ValueError` from `str.split`, an out-of-range index a `ValueError` with
the index message), and every other suffix raises the unsupported
transform `ValueError`. -/
def apply_safe_transform (value sfxRaw : String) : Except String String :=
  let sfx := pyStrip sfxRaw
  if sfx = "" then .ok value
  else if sfx = ".lower()" then .ok (pyLower value)
  else if sfx = ".upper()" then .ok (pyUpper value)
  else
    match parse_split_suffix sfx with
    | some (sep, idx) =>
      if sep = "" then .error "empty separator"
      else
        match pyIndex (pySplit value sep) idx with
        | some part => .ok part
        | none => .error ("split index out of range for value '" ++ value ++ "'")
    | none => .error ("unsupported transform '" ++ sfx ++ "' (eval is disabled)")

/-- `ReplyBuilder._from_pool`: dispatch on the attribute name to the
three allocators, report an allocator `none` as the distinguished
`pool_exhausted` condition, report a missing pool as `pool missing`,
and reject any other attribute name; returns the (value, error) pair and
the pool state after the call. -/
def from_pool (attr_name : String) (pool : Option PoolRuntime) :
    (Option String × Option String) × Option PoolRuntime :=
  match pool with
  | none => ((none, some "pool missing"), none)
  | some p =>
    if attr_name = "Framed-IP-Address" then
      match p.allocate_ipv4 with
      | (none, p') => ((none, some "pool_exhausted"), some p')
      | (some v, p') => ((some v, none), some p')
    else if attr_name = "Framed-IPv6-Prefix" then
      match p.allocate_ipv6 with
      | (none, p') => ((none, some "pool_exhausted"), some p')
      | (some v, p') => ((some v, none), some p')
    else if attr_name = "Delegated-IPv6-Prefix" then
      match p.allocate_ipv6_delegated with
      | (none, p') => ((none, some "pool_exhausted"), some p')
      | (some v, p') => ((some v, none), some p')
    else ((none, some ("fromPool not supported for " ++ attr_name)), some p)

/-- `ReplyBuilder._from_request`: parse `fromRequest.<Attr><suffix>`,
look the attribute up in the request, and apply the safe transform to
the string form of its first value. -/
def from_request (request : Packet) (directive : String) : Option PyVal × Option String :=
  match parse_from_request directive with
  | none => (none, some ("invalid fromRequest directive '" ++ directive ++ "'"))
  | some (attr, sfx) =>
    match request.firstValue attr with
    | none => (none, some ("missing avp " ++ attr ++ " in incoming request"))
    | some v =>
      match apply_safe_transform (pyStr v) sfx with
      | .error msg => (none, some msg)
      | .ok t => (some (.str t), none)

/-- `ReplyBuilder._apply_directive`: `fromUuid` draws the next fresh
UUID string, `fromPool` allocates, `fromRequest...` derives from the
request, anything else is an unknown directive; returns the (value,
error) pair, the pool state and the UUID counter after the call. -/
def apply_directive (uuidGen : Nat → String) (request : Packet) (attr_name directive : String)
    (pool : Option PoolRuntime) (n : Nat) :
    (Option PyVal × Option String) × Option PoolRuntime × Nat :=
  if directive = "fromUuid" then ((some (.str (uuidGen n)), none), pool, n + 1)
  else if directive = "fromPool" then
    let ((v, e), pool') := from_pool attr_name pool
    ((v.map PyVal.str, e), pool', n)
  else if pyStartsWith directive "fromRequest" then
    (from_request request directive, pool, n)
  else ((none, some ("unknown directive '" ++ directive ++ "'")), pool, n)

/-- `ReplyBuilder._resolve_value`: a string value starting with `"-> "`
is a directive (stripped after the prefix); anything else is literal. -/
def resolve_value (uuidGen : Nat → String) (request : Packet) (attr_name : String) (raw : PyVal)
    (pool : Option PoolRuntime) (n : Nat) :
    (Option PyVal × Option String) × Option PoolRuntime × Nat :=
  match raw with
  | .str s =>
    if pyStartsWith s "-> " then
      apply_directive uuidGen request attr_name (pyStrip (pyDrop s 3)) pool n
    else ((some raw, none), pool, n)
  | _ => ((some raw, none), pool, n)

/-- `ReplyBuilder.build_attributes`: evaluate the template attributes in
declared order; on the first failure return the single-entry
`Reply-Message` map and the message (substituting the canonical message
for the `pool_exhausted` condition); on success collect the resolved
values. The pool state and UUID counter are threaded through. -/
def build_attributes (uuidGen : Nat → String) (request : Packet) (attributes : Attrs)
    (pool : Option PoolRuntime) (n : Nat) :
    Attrs × Option String × Option PoolRuntime × Nat :=
  match attributes with
  | [] => ([], none, pool, n)
  | (name, raw) :: rest =>
    match resolve_value uuidGen request name raw pool n with
    | ((_, some err), pool', n') =>
      let msg := if err = "pool_exhausted" then pool_exhausted_message else err
      ([("Reply-Message", .str msg)], some msg, pool', n')
    | ((v, none), pool', n') =>
      match build_attributes uuidGen request rest pool' n' with
      | (res, none, pool'', n'') => ((name, v.getD .pnone) :: res, none, pool'', n'')
      | (res, some m, pool'', n'') => (res, some m, pool'', n'')

/-! ### Dialog store (storage/redis_store.py) -/

/-- A JSON-serializable value of a dialog payload. -/
inductive JVal where
  | s (v : String)
  | i (v : Int)
  | arr (vs : List JVal)
  | null
deriving Repr

/-- `_jsonable` (storage/redis_store.py): bytes become their hex string,
everything else passes through to the serializer. -/
def jsonable (v : PyVal) : JVal :=
  match v with
  | .bytes b => .s (bytesHex b)
  | .str s => .s s
  | .int i => .i i
  | .pnone => .null

/-- `RedisDialogStore` (storage/redis_store.py). The `writeResult` field
models the outcome of the pipelined `execute()` call against the Redis
client, `nowMs` and `tsStr` the two clock reads of `_reply_to_dict`
(source field name of `keyPfx`: `key_prefix`). -/
structure RedisDialogStore where
  keyPfx : String
  expiry_seconds : Nat
  store_auth_keys : List String
  store_acct_keys : List String
  store_coa_keys : List String
  store_disc_keys : List String
  writeResult : Except Unit Unit
  nowMs : Int
  tsStr : String

/-- `_select_suffix_keys`: the attribute-name list for the request code
(1 auth, 4 acct, 43 coa, 40 disc, otherwise empty). -/
def select_suffix_keys (store : RedisDialogStore) (request : Packet) : List String :=
  if request.code = 1 then store.store_auth_keys
  else if request.code = 4 then store.store_acct_keys
  else if request.code = 43 then store.store_coa_keys
  else if request.code = 40 then store.store_disc_keys
  else []

/-- `RedisDialogStore._first_attr_value`: same guarded access as the
match engine's helper; over the well-behaved packet shape it is the
plain first-value lookup. -/
def store_first_attr_value (packet : Packet) (attr : String) : Option PyVal :=
  match packet.getValues attr with
  | none => none
  | some (v, _) => some v

/-- The loop body of `_build_token`: the parts accumulated for the key
list in order. -/
def token_parts (request : Packet) (reply : Option Packet) : List String → List String
  | [] => []
  | key :: rest =>
    (if key = "code" then toString request.code
     else if key = "id" then toString request.id
     else
       match store_first_attr_value request key with
       | some v => pyStr v
       | none =>
         match reply with
         | some r =>
           match store_first_attr_value r key with
           | some v => pyStr v
           | none => ""
         | none => "") :: token_parts request reply rest

/-- `_build_token`: the configured prefix followed by the parts joined
with `"__"`. -/
def build_token (store : RedisDialogStore) (keys : List String) (request : Packet)
    (reply : Option Packet) : String :=
  store.keyPfx ++ String.intercalate "__" (token_parts request reply keys)

/-- Specification-side reading of one token part: `"code"` and `"id"`
map to the decimal request code and id, any other name to the stringified
first value from the request, else from the reply when one exists, else
the empty string. -/
def token_part_spec (request : Packet) (reply : Option Packet) (key : String) : String :=
  if key = "code" then toString request.code
  else if key = "id" then toString request.id
  else
    match store_first_attr_value request key with
    | some v => pyStr v
    | none =>
      match reply.bind (fun r => store_first_attr_value r key) with
      | some v => pyStr v
      | none => ""

/-- Specification-side reading of the token: prefix plus the mapped
parts joined with `"__"`. -/
def token_spec (store : RedisDialogStore) (keys : List String) (request : Packet)
    (reply : Option Packet) : String :=
  store.keyPfx ++ String.intercalate "__" (keys.map (token_part_spec request reply))

/-- `_packet_to_dict`: the request snapshot with `_code`, `_id`, `_host`,
`_port` followed by one entry per attribute; `User-Password` is replaced
by the literal `"encryptedValue"`, a single value collapses to a scalar,
several values stay a list. -/
def packet_to_dict (packet : Packet) (addr : String × Nat) : List (String × JVal) :=
  [("_code", .i packet.code), ("_id", .i packet.id), ("_host", .s addr.1), ("_port", .i addr.2)] ++
    packet.attrs.map (fun e =>
      if e.1 = "User-Password" then (e.1, JVal.s "encryptedValue")
      else
        match e.2.2 with
        | [] => (e.1, jsonable e.2.1)
        | _ => (e.1, JVal.arr ((e.2.1 :: e.2.2).map jsonable)))

/-- `_reply_to_dict`: the reply snapshot with `_code`, `_ts`, `_tsStr`,
`_id` followed by one entry per attribute (no replacement is applied
here); a missing reply yields the null shape. -/
def reply_to_dict (nowMs : Int) (tsStr : String) (reply : Option Packet) :
    List (String × JVal) :=
  match reply with
  | none => [("_code", .null), ("_ts", .i nowMs), ("_tsStr", .s tsStr), ("_id", .null)]
  | some r =>
    [("_code", .i r.code), ("_ts", .i nowMs), ("_tsStr", .s tsStr), ("_id", .i r.id)] ++
      r.attrs.map (fun e =>
        match e.2.2 with
        | [] => (e.1, jsonable e.2.1)
        | _ => (e.1, JVal.arr ((e.2.1 :: e.2.2).map jsonable)))

/-- The persisted dialog payload: a request snapshot and a reply
snapshot. -/
structure Dialog where
  request : List (String × JVal)
  reply : List (String × JVal)

/-- An operation issued on the Redis pipeline. -/
inductive RedisOp where
  | rpush (key : String) (value : Dialog)
  | expire (key : String) (seconds : Nat)

/-- `RedisDialogStore.store_dialog`: build the token and the dialog
payload, then right-push the payload onto the token and set its expiry
via the pipeline; a failing `execute()` raises (`Except.error`). -/
def store_dialog (store : RedisDialogStore) (request : Packet) (reply : Option Packet)
    (addr : String × Nat) : Except Unit (String × List RedisOp) :=
  let keys := select_suffix_keys store request
  let token := build_token store keys request reply
  let dialog : Dialog :=
    { request := packet_to_dict request addr
      reply := reply_to_dict store.nowMs store.tsStr reply }
  match store.writeResult with
  | .error e => .error e
  | .ok _ => .ok (token, [.rpush token dialog, .expire token store.expiry_seconds])

/-! ### Backend orchestrator (radius/backend.py) -/

/-- `BackendResult` (radius/backend.py). -/
structure BackendResult where
  reply_code : Option Nat
  reply_attributes : Option Attrs
  redis_token : Option String
deriving DecidableEq

/-- A reply definition (`AuthReply` / `AcctReply` of config/schema.py):
a reply code and an ordered attribute template. -/
structure ReplyDef where
  code : Nat
  attributes : Attrs

/-- `RadiusBackend` (radius/backend.py): the match engine, the reply
definitions, the mutable pool runtimes, the optional dialog store, and
the abstract UUID stream (`uuid.uuid4`) with its position. -/
structure RadiusBackend where
  match_engine : MatchEngine
  reply_definitions_auth : List (String × ReplyDef)
  reply_definitions_acct : List (String × ReplyDef)
  pool_runtimes : List (String × PoolRuntime)
  redis_store : Option RedisDialogStore
  uuidGen : Nat → String
  uuidCount : Nat

/-- Write a mutated pool runtime back under its name (aliasing of the
Python pool object in the `pool_runtimes` dict); when the builder had no
pool there is nothing to write back. -/
def set_pool (rts : List (String × PoolRuntime)) (name : String) :
    Option PoolRuntime → List (String × PoolRuntime)
  | none => rts
  | some p => updateA rts name p

/-- `PacketView` (radius/backend.py): a reply packet synthesized from
the chosen code, the request id and the materialized attributes (every
modelled value is a scalar, so each becomes a singleton value list). -/
def packet_view (code : Nat) (packet_id : Nat) (attributes : Attrs) : Packet :=
  { code := code, id := packet_id, attrs := attributes.map (fun e => (e.1, e.2, [])) }

/-- `RadiusBackend._handle_auth`: select pool and auth reply, build the
attributes, and answer with the definition's code on success or an
Access-Reject (3) carrying the builder's map on error; the mutated pool
and UUID position are written back into the backend. -/
def handle_auth (search : String → String → Bool) (b : RadiusBackend) (request : Packet) :
    (Option Nat × Option Attrs) × RadiusBackend :=
  let pool_name := MatchEngine.select_pool search pyStr b.match_engine request.toPy "default"
  let pool := lookupA b.pool_runtimes pool_name
  let reply_name :=
    match MatchEngine.select_reply search pyStr b.match_engine "auth" request.toPy "default" with
    | .ok name => name
    | .error _ => "default"
  match lookupA b.reply_definitions_auth reply_name with
  | none => ((none, none), b)
  | some reply_def =>
    match build_attributes b.uuidGen request reply_def.attributes pool b.uuidCount with
    | (attrs, err, pool', n') =>
      let b' := { b with pool_runtimes := set_pool b.pool_runtimes pool_name pool'
                         uuidCount := n' }
      match err with
      | some _ => ((some 3, some attrs), b')
      | none => ((some reply_def.code, some attrs), b')

/-- `RadiusBackend._handle_acct`: select the acct reply and answer with
the definition's code and a copy of its literal attributes; no directive
expansion is applied. -/
def handle_acct (search : String → String → Bool) (b : RadiusBackend) (request : Packet) :
    (Option Nat × Option Attrs) × RadiusBackend :=
  let reply_name :=
    match MatchEngine.select_reply search pyStr b.match_engine "acct" request.toPy "default" with
    | .ok name => name
    | .error _ => "default"
  match lookupA b.reply_definitions_acct reply_name with
  | none => ((none, none), b)
  | some reply_def => ((some reply_def.code, some reply_def.attributes), b)

/-- The store phase of `handle_request` (lines 73-78 of backend.py):
`none` when no dialog store is configured, otherwise the token under
which `store_dialog` persisted the request and the synthesized reply
view, an error when the write raised. -/
def store_phase (store : Option RedisDialogStore) (request : Packet) (addr : String × Nat)
    (rc : Option Nat) (ra : Option Attrs) : Except Unit (Option String) :=
  match store with
  | none => .ok none
  | some s =>
    match store_dialog s request
        (match rc with
         | none => none
         | some c => some (packet_view c request.id (ra.getD []))) addr with
    | .error e => .error e
    | .ok x => .ok (some x.1)

/-- `RadiusBackend.handle_request`: dispatch on the request code (1 auth,
4 acct, anything else unhandled), then, when a dialog store is
configured, persist the dialog of the request and the synthesized reply
view and place the returned token in the result; a store failure
propagates. -/
def handle_request (search : String → String → Bool) (b : RadiusBackend) (request : Packet)
    (addr : String × Nat) : Except Unit (BackendResult × RadiusBackend) :=
  let d :=
    if request.code = 1 then handle_auth search b request
    else if request.code = 4 then handle_acct search b request
    else ((none, none), b)
  match d with
  | ((reply_code, reply_attributes), b') =>
    match store_phase b'.redis_store request addr reply_code reply_attributes with
    | .error e => .error e
    | .ok tok =>
      .ok ({ reply_code := reply_code, reply_attributes := reply_attributes,
             redis_token := tok }, b')

/-! ### UDP server (udp/server.py) -/

/-- The decision core of `UdpRadiusProtocol._handle_datagram`: decode,
call the backend, encode, send; any exception and any result without a
reply code or attributes discards the datagram silently (`none` = no
reply sent). -/
def handle_datagram (decode : List Nat → Except Unit Packet)
    (backendRun : Packet → Except Unit BackendResult)
    (encode : Nat → Attrs → Packet → Except Unit (List Nat))
    (data : List Nat) : Option (List Nat) :=
  match decode data with
  | .error _ => none
  | .ok request =>
    match backendRun request with
    | .error _ => none
    | .ok result =>
      match result.reply_code, result.reply_attributes with
      | some rc, some ra =>
        match encode rc ra request with
        | .error _ => none
        | .ok payload => some payload
      | _, _ => none

/-- A duck-typed request whose every access raises, for exercising the
guarded attribute access of the match engine. -/
def raisingRequest : PyRequest PyVal where
  contains := fun _ => .error ()
  getItem := fun _ => .error ()

/-- A concrete dialog store whose write succeeds. -/
def sampleStoreOk : RedisDialogStore :=
  ⟨"p.", 10, ["User-Name"], ["User-Name"], ["User-Name"], ["User-Name"], .ok (), 0, "ts"⟩

/-- A concrete dialog store whose write raises. -/
def sampleStoreErr : RedisDialogStore :=
  ⟨"p.", 10, ["User-Name"], ["User-Name"], ["User-Name"], ["User-Name"], .error (), 0, "ts"⟩

/-- A concrete backend with no rules and no reply definitions. -/
def sampleBackend (store : Option RedisDialogStore) : RadiusBackend :=
  { match_engine := ⟨[], [], []⟩
    reply_definitions_auth := []
    reply_definitions_acct := []
    pool_runtimes := []
    redis_store := store
    uuidGen := fun _ => "u"
    uuidCount := 0 }

/-- A concrete backend with a catch-all acct reply definition. -/
def sampleAcctBackend (store : Option RedisDialogStore) : RadiusBackend :=
  { match_engine := ⟨[], [], []⟩
    reply_definitions_auth := []
    reply_definitions_acct := [("default", ⟨5, []⟩)]
    pool_runtimes := []
    redis_store := store
    uuidGen := fun _ => "u"
    uuidCount := 0 }

/-- A concrete dialog store keyed on the request code and id. -/
def sampleStoreCodeId : RedisDialogStore :=
  ⟨"x.", 600, ["code", "id"], ["code", "id"], ["code", "id"], ["code", "id"], .ok (), 0, "ts"⟩

/-! ## Theorems -/

/-- The code's rule-engine loop agrees with the first-match reading. -/
theorem match_rules_eq_first_match_spec {V : Type} (search : String → String → Bool)
    (toStr : V → String) (request : PyRequest V) (default : String) :
    ∀ rules, match_rules search toStr rules request default =
      first_match_spec search toStr rules request default := by
  intro rules
  induction rules with
  | nil => rfl
  | cons g rest ih =>
    by_cases he : g.predicates.isEmpty = true
    · have hg : group_matches search toStr g request = true := by
        simp [group_matches, he]
      simp [match_rules, first_match_spec, List.find?, hg, he]
    · by_cases ha : g.predicates.any (fun p => rule_matches search toStr p request) = true
      · have hg : group_matches search toStr g request = true := by
          simp [group_matches, ha]
        simp [match_rules, first_match_spec, List.find?, hg, he, ha]
      · have hg : group_matches search toStr g request = false := by
          simp [group_matches, he, ha]
        simp only [match_rules, first_match_spec, List.find?, hg, he, ha, if_false,
          Bool.false_eq_true]
        simpa [first_match_spec] using ih

/-- Claim C1: for every ordered rule list and every request, `match_rules`
(and with it `select_pool` and `select_reply`) is deterministic and
returns the target of the first matching group — a group with an empty
predicate list matching every request, otherwise matching when any of its
predicates matches, a predicate matching when every (attribute, pattern)
pair matches, and a pair matching when the request exposes the attribute
and the unanchored regex search of the pattern over the string form of
its first value succeeds; if no group matches, the given default is
returned. -/
theorem c1_match_rules_first_match {V : Type} (search : String → String → Bool)
    (toStr : V → String) (e : MatchEngine) (rules : List RuleGroup)
    (request : PyRequest V) (default : String) :
    match_rules search toStr rules request default =
        first_match_spec search toStr rules request default ∧
    MatchEngine.select_pool search toStr e request default =
        first_match_spec search toStr e.pool_match_rules request default ∧
    MatchEngine.select_reply search toStr e "auth" request default =
        .ok (first_match_spec search toStr e.reply_match_rules_auth request default) ∧
    MatchEngine.select_reply search toStr e "acct" request default =
        .ok (first_match_spec search toStr e.reply_match_rules_acct request default) ∧
    (∀ rule : PredicateRule, rule_matches search toStr rule request =
        rule.all fun ap => ((first_attr_value request ap.1).map
          (fun v => search ap.2 (toStr v))).getD false) := by
  refine ⟨match_rules_eq_first_match_spec search toStr request default rules, ?_, ?_, ?_, ?_⟩
  · exact match_rules_eq_first_match_spec search toStr request default _
  · show Except.ok (match_rules search toStr e.reply_match_rules_auth request default) = _
    rw [match_rules_eq_first_match_spec]
  · show Except.ok (match_rules search toStr e.reply_match_rules_acct request default) = _
    rw [match_rules_eq_first_match_spec]
  · intro rule
    unfold rule_matches
    congr 1
    funext ap
    cases first_attr_value request ap.1 <;> rfl

/-- Claim C10: rule evaluation is total over arbitrary duck-typed
requests — a pair whose attribute access fails in any of the guarded ways
(raising containment test, missing attribute, raising lookup, empty value
list, raising first-value indexing) is treated as not matching, and
`match_rules` always returns a target of the rule list or the default. -/
theorem c10_matching_total {V : Type} (search : String → String → Bool) (toStr : V → String) :
    (∀ (rules : List RuleGroup) (request : PyRequest V) (default : String),
        match_rules search toStr rules request default = default ∨
          match_rules search toStr rules request default ∈ rules.map RuleGroup.target) ∧
    (∀ (rule : PredicateRule) (request : PyRequest V) (attr pat : String),
        (attr, pat) ∈ rule → first_attr_value request attr = none →
          rule_matches search toStr rule request = false) ∧
    (∀ (request : PyRequest V) (attr : String),
        (request.contains attr = .error () → first_attr_value request attr = none) ∧
        (request.contains attr = .ok false → first_attr_value request attr = none) ∧
        (request.contains attr = .ok true → request.getItem attr = .error () →
          first_attr_value request attr = none) ∧
        (∀ values, request.contains attr = .ok true → request.getItem attr = .ok values →
          values.isEmpty = true → first_attr_value request attr = none) ∧
        (∀ values, request.contains attr = .ok true → request.getItem attr = .ok values →
          values.first = .error () → first_attr_value request attr = none)) := by
  refine ⟨?_, ?_, ?_⟩
  · intro rules request default
    induction rules with
    | nil => exact Or.inl rfl
    | cons g rest ih =>
      by_cases he : g.predicates.isEmpty = true
      · right
        simp [match_rules, he]
      · by_cases ha : (g.predicates.any fun p => rule_matches search toStr p request) = true
        · right
          simp [match_rules, he, ha]
        · have : match_rules search toStr (g :: rest) request default =
              match_rules search toStr rest request default := by
            simp [match_rules, he, ha]
          rw [this]
          rcases ih with h | h
          · exact Or.inl h
          · exact Or.inr (by simp [List.map_cons]; right; simpa using h)
  · intro rule request attr pat hmem hnone
    unfold rule_matches
    refine List.all_eq_false.mpr ⟨(attr, pat), hmem, ?_⟩
    simp [hnone]
  · intro request attr
    refine ⟨?_, ?_, ?_, ?_, ?_⟩
    · intro h; unfold first_attr_value; rw [h]
    · intro h; unfold first_attr_value; rw [h]
    · intro h1 h2; unfold first_attr_value; rw [h1, h2]
    · intro values h1 h2 h3; unfold first_attr_value; rw [h1, h2]; simp [h3]
    · intro values h1 h2 h3
      unfold first_attr_value
      rw [h1, h2]
      by_cases he : values.isEmpty = true <;> simp [he, h3]

/-- Witness for C10 at a concrete raising request. -/
theorem c10_matching_total_witness :
    rule_matches (fun _ _ => true) pyStr [("User-Name", "alice")] raisingRequest = false ∧
    (match_rules (fun _ _ => true) pyStr [⟨"t", [[("User-Name", "alice")]]⟩] raisingRequest
        "default" = "default" ∨
      match_rules (fun _ _ => true) pyStr [⟨"t", [[("User-Name", "alice")]]⟩] raisingRequest
        "default" ∈ [RuleGroup.mk "t" [[("User-Name", "alice")]]].map RuleGroup.target) := by
  constructor
  · exact (c10_matching_total (fun _ _ => true) pyStr).2.1 _ raisingRequest "User-Name" "alice"
      (by simp) rfl
  · exact (c10_matching_total (fun _ _ => true) pyStr).1 _ raisingRequest "default"

set_option maxRecDepth 100000 in
/-- Decimal rendering of an octet: non-empty, free of dots, and faithful
to its value. -/
theorem octet_repr_digits :
    ∀ o : Nat, o < 256 → ((toString o).data ≠ [] ∧ (∀ c ∈ (toString o).data, c ≠ '.') ∧
      digitsToNat ((toString o).data) = o) := by decide

/-- Two dot-free blocks followed by a dot determine each other. -/
theorem dot_block_inj :
    ∀ (d d' rest rest' : List Char), (∀ c ∈ d, c ≠ '.') → (∀ c ∈ d', c ≠ '.') →
      d ++ '.' :: rest = d' ++ '.' :: rest' → d = d' ∧ rest = rest' := by
  intro d
  induction d with
  | nil =>
    intro d' rest rest' _ h2 heq
    cases d' with
    | nil => simpa using heq
    | cons c cs =>
      exfalso
      have : c = '.' := by
        have := congrArg (fun l => l.head?) heq
        simpa using this.symm
      exact h2 c (by simp) this
  | cons c cs ih =>
    intro d' rest rest' h1 h2 heq
    cases d' with
    | nil =>
      exfalso
      have : c = '.' := by
        have := congrArg (fun l => l.head?) heq
        simpa using this
      exact h1 c (by simp) this
    | cons c' cs' =>
      have hhead : c = c' := by
        have := congrArg (fun l => l.head?) heq
        simpa using this
      have htail : cs ++ '.' :: rest = cs' ++ '.' :: rest' := by
        have := congrArg (fun l => l.tail) heq
        simpa using this
      obtain ⟨he, hr⟩ := ih cs' rest rest' (fun x hx => h1 x (by simp [hx]))
        (fun x hx => h2 x (by simp [hx])) htail
      exact ⟨by rw [hhead, he], hr⟩

/-- The dotted-quad rendering is injective on 32-bit addresses. -/
theorem ipv4ToString_inj {n m : Nat} (hn : n < 2 ^ 32) (hm : m < 2 ^ 32)
    (h : ipv4ToString n = ipv4ToString m) : n = m := by
  have hdata : (ipv4ToString n).data = (ipv4ToString m).data := congrArg String.data h
  have expand : ∀ k : Nat, (ipv4ToString k).data =
      (toString (k / 2 ^ 24 % 256)).data ++ '.' :: ((toString (k / 2 ^ 16 % 256)).data ++
        '.' :: ((toString (k / 2 ^ 8 % 256)).data ++ '.' :: (toString (k % 256)).data)) := by
    intro k
    simp [ipv4ToString, String.data_append]
  rw [expand n, expand m] at hdata
  have hb : ∀ k : Nat, k % 256 < 256 := fun k => Nat.mod_lt _ (by norm_num)
  obtain ⟨e1, hrest1⟩ := dot_block_inj _ _ _ _ (octet_repr_digits _ (hb _)).2.1
    (octet_repr_digits _ (hb _)).2.1 hdata
  obtain ⟨e2, hrest2⟩ := dot_block_inj _ _ _ _ (octet_repr_digits _ (hb _)).2.1
    (octet_repr_digits _ (hb _)).2.1 hrest1
  obtain ⟨e3, e4⟩ := dot_block_inj _ _ _ _ (octet_repr_digits _ (hb _)).2.1
    (octet_repr_digits _ (hb _)).2.1 hrest2
  have o1 : n / 2 ^ 24 % 256 = m / 2 ^ 24 % 256 := by
    have h1 := (octet_repr_digits _ (hb (n / 2 ^ 24))).2.2
    have h2 := (octet_repr_digits _ (hb (m / 2 ^ 24))).2.2
    rw [← h1, ← h2, e1]
  have o2 : n / 2 ^ 16 % 256 = m / 2 ^ 16 % 256 := by
    have h1 := (octet_repr_digits _ (hb (n / 2 ^ 16))).2.2
    have h2 := (octet_repr_digits _ (hb (m / 2 ^ 16))).2.2
    rw [← h1, ← h2, e2]
  have o3 : n / 2 ^ 8 % 256 = m / 2 ^ 8 % 256 := by
    have h1 := (octet_repr_digits _ (hb (n / 2 ^ 8))).2.2
    have h2 := (octet_repr_digits _ (hb (m / 2 ^ 8))).2.2
    rw [← h1, ← h2, e3]
  have o4 : n % 256 = m % 256 := by
    have h1 := (octet_repr_digits _ (hb n)).2.2
    have h2 := (octet_repr_digits _ (hb m)).2.2
    rw [← h1, ← h2, e4]
  omega

/-- The value of the (k+1)-th successive IPv4 allocation is the k-th
element of the initial sequence. -/
theorem allocN4_eq_get? :
    ∀ (k : Nat) (p : PoolRuntime), p.allocN4 k = (p.ipv4.get? k).map ipv4ToString := by
  intro k
  induction k with
  | zero =>
    intro p
    cases h : p.ipv4 <;>
      simp [PoolRuntime.allocN4, PoolRuntime.allocate_ipv4, h]
  | succ k ih =>
    intro p
    cases h : p.ipv4 with
    | nil =>
      have : p.allocate_ipv4 = (none, p) := by simp [PoolRuntime.allocate_ipv4, h]
      simp [PoolRuntime.allocN4, this, ih, h]
    | cons a rest =>
      have : p.allocate_ipv4 = (some (ipv4ToString a), { p with ipv4 := rest }) := by
        simp [PoolRuntime.allocate_ipv4, h]
      simp [PoolRuntime.allocN4, this, ih, h]

/-- The value of the (k+1)-th successive IPv6 allocation is the k-th
element of the initial sequence. -/
theorem allocN6_eq_get? :
    ∀ (k : Nat) (p : PoolRuntime), p.allocN6 k = p.ipv6.get? k := by
  intro k
  induction k with
  | zero =>
    intro p
    cases h : p.ipv6 <;>
      simp [PoolRuntime.allocN6, PoolRuntime.allocate_ipv6, h]
  | succ k ih =>
    intro p
    cases h : p.ipv6 with
    | nil =>
      have : p.allocate_ipv6 = (none, p) := by simp [PoolRuntime.allocate_ipv6, h]
      simp [PoolRuntime.allocN6, this, ih, h]
    | cons a rest =>
      have : p.allocate_ipv6 = (some a, { p with ipv6 := rest }) := by
        simp [PoolRuntime.allocate_ipv6, h]
      simp [PoolRuntime.allocN6, this, ih, h]

/-- The value of the (k+1)-th successive delegated-IPv6 allocation is the
k-th element of the initial sequence. -/
theorem allocN6d_eq_get? :
    ∀ (k : Nat) (p : PoolRuntime), p.allocN6d k = p.ipv6_delegated.get? k := by
  intro k
  induction k with
  | zero =>
    intro p
    cases h : p.ipv6_delegated <;>
      simp [PoolRuntime.allocN6d, PoolRuntime.allocate_ipv6_delegated, h]
  | succ k ih =>
    intro p
    cases h : p.ipv6_delegated with
    | nil =>
      have : p.allocate_ipv6_delegated = (none, p) := by
        simp [PoolRuntime.allocate_ipv6_delegated, h]
      simp [PoolRuntime.allocN6d, this, ih, h]
    | cons a rest =>
      have : p.allocate_ipv6_delegated = (some a, { p with ipv6_delegated := rest }) := by
        simp [PoolRuntime.allocate_ipv6_delegated, h]
      simp [PoolRuntime.allocN6d, this, ih, h]

/-- No pool operation other than an IPv4 restore refills an empty IPv4
sequence. -/
theorem ipv4_empty_applyOps (ops : List PoolOp) :
    ∀ p : PoolRuntime, p.ipv4 = [] → (∀ op ∈ ops, ∀ a, op ≠ PoolOp.restoreV4 a) →
      (p.applyOps ops).ipv4 = [] := by
  induction ops with
  | nil => intro p hp _; simpa [PoolRuntime.applyOps] using hp
  | cons op rest ih =>
    intro p hp hops
    have h1 : (p.applyOp op).ipv4 = [] := by
      cases op with
      | allocV4 => simp [PoolRuntime.applyOp, PoolRuntime.allocate_ipv4, hp]
      | allocV6 =>
        cases h : p.ipv6 <;> simp [PoolRuntime.applyOp, PoolRuntime.allocate_ipv6, h, hp]
      | allocV6d =>
        cases h : p.ipv6_delegated <;>
          simp [PoolRuntime.applyOp, PoolRuntime.allocate_ipv6_delegated, h, hp]
      | restoreV4 a => exact absurd rfl (hops _ (by simp) a)
      | restoreV6 s => simp [PoolRuntime.applyOp, PoolRuntime.restore_ipv6, hp]
      | restoreV6d s => simp [PoolRuntime.applyOp, PoolRuntime.restore_ipv6_delegated, hp]
    have : p.applyOps (op :: rest) = (p.applyOp op).applyOps rest := rfl
    rw [this]
    exact ih _ h1 (fun o ho a => hops o (by simp [ho]) a)

/-- No pool operation other than an IPv6 restore refills an empty IPv6
sequence. -/
theorem ipv6_empty_applyOps (ops : List PoolOp) :
    ∀ p : PoolRuntime, p.ipv6 = [] → (∀ op ∈ ops, ∀ s, op ≠ PoolOp.restoreV6 s) →
      (p.applyOps ops).ipv6 = [] := by
  induction ops with
  | nil => intro p hp _; simpa [PoolRuntime.applyOps] using hp
  | cons op rest ih =>
    intro p hp hops
    have h1 : (p.applyOp op).ipv6 = [] := by
      cases op with
      | allocV4 =>
        cases h : p.ipv4 <;> simp [PoolRuntime.applyOp, PoolRuntime.allocate_ipv4, h, hp]
      | allocV6 => simp [PoolRuntime.applyOp, PoolRuntime.allocate_ipv6, hp]
      | allocV6d =>
        cases h : p.ipv6_delegated <;>
          simp [PoolRuntime.applyOp, PoolRuntime.allocate_ipv6_delegated, h, hp]
      | restoreV4 a => simp [PoolRuntime.applyOp, PoolRuntime.restore_ipv4, hp]
      | restoreV6 s => exact absurd rfl (hops _ (by simp) s)
      | restoreV6d s => simp [PoolRuntime.applyOp, PoolRuntime.restore_ipv6_delegated, hp]
    exact ih _ h1 (fun o ho s => hops o (by simp [ho]) s)

/-- No pool operation other than a delegated-IPv6 restore refills an
empty delegated-IPv6 sequence. -/
theorem ipv6d_empty_applyOps (ops : List PoolOp) :
    ∀ p : PoolRuntime, p.ipv6_delegated = [] →
      (∀ op ∈ ops, ∀ s, op ≠ PoolOp.restoreV6d s) →
      (p.applyOps ops).ipv6_delegated = [] := by
  induction ops with
  | nil => intro p hp _; simpa [PoolRuntime.applyOps] using hp
  | cons op rest ih =>
    intro p hp hops
    have h1 : (p.applyOp op).ipv6_delegated = [] := by
      cases op with
      | allocV4 =>
        cases h : p.ipv4 <;> simp [PoolRuntime.applyOp, PoolRuntime.allocate_ipv4, h, hp]
      | allocV6 =>
        cases h : p.ipv6 <;> simp [PoolRuntime.applyOp, PoolRuntime.allocate_ipv6, h, hp]
      | allocV6d => simp [PoolRuntime.applyOp, PoolRuntime.allocate_ipv6_delegated, hp]
      | restoreV4 a => simp [PoolRuntime.applyOp, PoolRuntime.restore_ipv4, hp]
      | restoreV6 s => simp [PoolRuntime.applyOp, PoolRuntime.restore_ipv6, hp]
      | restoreV6d s => exact absurd rfl (hops _ (by simp) s)
    exact ih _ h1 (fun o ho s => hops o (by simp [ho]) s)

/-- Claim C3 counterexample: a pool runtime whose IPv4 sequence holds the
same address twice (e.g. built from a duplicated configured network)
returns equal, not pairwise-distinct, items on two successive calls while
the sequence is not yet exhausted. -/
theorem c3_counterexample :
    (PoolRuntime.mk false [167772161, 167772161] [] []).allocN4 0 = some "10.0.0.1" ∧
    (PoolRuntime.mk false [167772161, 167772161] [] []).allocN4 1 = some "10.0.0.1" ∧
    (1 : Nat) < (PoolRuntime.mk false [167772161, 167772161] [] []).ipv4.length := by
  refine ⟨rfl, rfl, by decide⟩

/-- Claim C3 (amended: the sequences must be duplicate-free — as produced
by non-overlapping configured networks — with IPv4 entries genuine 32-bit
addresses): each allocator pops from the head of its sequence and returns
pairwise-distinct items on successive calls until the sequence is
exhausted; once exhausted it returns `none` on every subsequent call
until a matching restore is performed; restore appends to the tail. -/
theorem c3_pool_allocation :
    (∀ (p : PoolRuntime) (a : Nat) (rest : List Nat), p.ipv4 = a :: rest →
        p.allocate_ipv4 = (some (ipv4ToString a), { p with ipv4 := rest })) ∧
    (∀ p : PoolRuntime, p.ipv4 = [] → p.allocate_ipv4 = (none, p)) ∧
    (∀ (p : PoolRuntime) (a : Nat), (p.restore_ipv4 a).ipv4 = p.ipv4 ++ [a]) ∧
    (∀ (p : PoolRuntime) (s : String) (rest : List String), p.ipv6 = s :: rest →
        p.allocate_ipv6 = (some s, { p with ipv6 := rest })) ∧
    (∀ p : PoolRuntime, p.ipv6 = [] → p.allocate_ipv6 = (none, p)) ∧
    (∀ (p : PoolRuntime) (s : String), (p.restore_ipv6 s).ipv6 = p.ipv6 ++ [s]) ∧
    (∀ (p : PoolRuntime) (s : String) (rest : List String), p.ipv6_delegated = s :: rest →
        p.allocate_ipv6_delegated = (some s, { p with ipv6_delegated := rest })) ∧
    (∀ p : PoolRuntime, p.ipv6_delegated = [] → p.allocate_ipv6_delegated = (none, p)) ∧
    (∀ (p : PoolRuntime) (s : String),
        (p.restore_ipv6_delegated s).ipv6_delegated = p.ipv6_delegated ++ [s]) ∧
    (∀ p : PoolRuntime, p.ipv4.Nodup → (∀ a ∈ p.ipv4, a < 2 ^ 32) →
        ∀ i j, i < j → j < p.ipv4.length → p.allocN4 i ≠ p.allocN4 j) ∧
    (∀ p : PoolRuntime, p.ipv6.Nodup →
        ∀ i j, i < j → j < p.ipv6.length → p.allocN6 i ≠ p.allocN6 j) ∧
    (∀ p : PoolRuntime, p.ipv6_delegated.Nodup →
        ∀ i j, i < j → j < p.ipv6_delegated.length → p.allocN6d i ≠ p.allocN6d j) ∧
    (∀ (p : PoolRuntime) (k : Nat), p.ipv4.length ≤ k → p.allocN4 k = none) ∧
    (∀ (p : PoolRuntime) (k : Nat), p.ipv6.length ≤ k → p.allocN6 k = none) ∧
    (∀ (p : PoolRuntime) (k : Nat), p.ipv6_delegated.length ≤ k → p.allocN6d k = none) ∧
    (∀ (p : PoolRuntime) (ops : List PoolOp), p.ipv4 = [] →
        (∀ op ∈ ops, ∀ a, op ≠ PoolOp.restoreV4 a) →
        ((p.applyOps ops).allocate_ipv4).1 = none) ∧
    (∀ (p : PoolRuntime) (ops : List PoolOp), p.ipv6 = [] →
        (∀ op ∈ ops, ∀ s, op ≠ PoolOp.restoreV6 s) →
        ((p.applyOps ops).allocate_ipv6).1 = none) ∧
    (∀ (p : PoolRuntime) (ops : List PoolOp), p.ipv6_delegated = [] →
        (∀ op ∈ ops, ∀ s, op ≠ PoolOp.restoreV6d s) →
        ((p.applyOps ops).allocate_ipv6_delegated).1 = none) := by
  refine ⟨?_, ?_, ?_, ?_, ?_, ?_, ?_, ?_, ?_, ?_, ?_, ?_, ?_, ?_, ?_, ?_, ?_, ?_⟩
  · intro p a rest h; simp [PoolRuntime.allocate_ipv4, h]
  · intro p h; simp [PoolRuntime.allocate_ipv4, h]
  · intro p a; rfl
  · intro p s rest h; simp [PoolRuntime.allocate_ipv6, h]
  · intro p h; simp [PoolRuntime.allocate_ipv6, h]
  · intro p s; rfl
  · intro p s rest h; simp [PoolRuntime.allocate_ipv6_delegated, h]
  · intro p h; simp [PoolRuntime.allocate_ipv6_delegated, h]
  · intro p s; rfl
  · intro p hnd hbound i j hij hj
    rw [allocN4_eq_get?, allocN4_eq_get?]
    have hi : i < p.ipv4.length := lt_trans hij hj
    rw [List.get?_eq_get hi, List.get?_eq_get hj]
    simp only [Option.map_some', ne_eq, Option.some.injEq]
    intro hstr
    have hne : p.ipv4.get ⟨i, hi⟩ ≠ p.ipv4.get ⟨j, hj⟩ := by
      intro hsame
      have := List.Nodup.get_inj_iff hnd |>.mp hsame
      simp at this
      omega
    exact hne (ipv4ToString_inj (hbound _ (p.ipv4.get_mem _ _)) (hbound _ (p.ipv4.get_mem _ _)) hstr)
  · intro p hnd i j hij hj
    rw [allocN6_eq_get?, allocN6_eq_get?]
    have hi : i < p.ipv6.length := lt_trans hij hj
    rw [List.get?_eq_get hi, List.get?_eq_get hj]
    simp only [ne_eq, Option.some.injEq]
    intro hsame
    have := List.Nodup.get_inj_iff hnd |>.mp hsame
    simp at this
    omega
  · intro p hnd i j hij hj
    rw [allocN6d_eq_get?, allocN6d_eq_get?]
    have hi : i < p.ipv6_delegated.length := lt_trans hij hj
    rw [List.get?_eq_get hi, List.get?_eq_get hj]
    simp only [ne_eq, Option.some.injEq]
    intro hsame
    have := List.Nodup.get_inj_iff hnd |>.mp hsame
    simp at this
    omega
  · intro p k hk
    rw [allocN4_eq_get?, List.get?_eq_none.mpr hk]
    rfl
  · intro p k hk
    rw [allocN6_eq_get?]
    exact List.get?_eq_none.mpr hk
  · intro p k hk
    rw [allocN6d_eq_get?]
    exact List.get?_eq_none.mpr hk
  · intro p ops hp hops
    have := ipv4_empty_applyOps ops p hp hops
    simp [PoolRuntime.allocate_ipv4, this]
  · intro p ops hp hops
    have := ipv6_empty_applyOps ops p hp hops
    simp [PoolRuntime.allocate_ipv6, this]
  · intro p ops hp hops
    have := ipv6d_empty_applyOps ops p hp hops
    simp [PoolRuntime.allocate_ipv6_delegated, this]

/-- Witness for C3 at a concrete two-address pool and a concrete
operation sequence. -/
theorem c3_pool_allocation_witness :
    (PoolRuntime.mk false [167772161, 167772162] [] []).allocate_ipv4 =
        (some "10.0.0.1", PoolRuntime.mk false [167772162] [] []) ∧
    (PoolRuntime.mk false [167772161, 167772162] [] []).allocN4 0 ≠
        (PoolRuntime.mk false [167772161, 167772162] [] []).allocN4 1 ∧
    ((PoolRuntime.mk false [] ["p1"] []).applyOps
        [PoolOp.allocV4, PoolOp.allocV6, PoolOp.restoreV6 "p2"]).allocate_ipv4.1 = none := by
  refine ⟨?_, ?_, ?_⟩
  · exact c3_pool_allocation.1 _ 167772161 [167772162] rfl
  · exact c3_pool_allocation.2.2.2.2.2.2.2.2.2.1 _ (by decide) (by decide) 0 1
      (by decide) (by decide)
  · exact c3_pool_allocation.2.2.2.2.2.2.2.2.2.2.2.2.2.2.2.1 _ _ rfl
      (by intro op hop a; fin_cases hop <;> simp)

/-- Claim C6: pool construction enumerates, for each configured IPv4
network, its host addresses — both endpoint addresses for a /31 and the
single address for a /32, otherwise every address strictly between the
network and broadcast addresses — in ascending network order; for the
pool [10.0.0.0/30] with shuffle off, successive `allocate_ipv4` calls
return exactly "10.0.0.1", then "10.0.0.2", then none. -/
theorem c6_pool_expansion :
    (∀ a : Nat, (IPv4Net.mk a 32).hosts = [a]) ∧
    (∀ a : Nat, (IPv4Net.mk a 31).hosts = [a, a + 1]) ∧
    (∀ net : IPv4Net, net.plen < 31 →
        (∀ x : Nat, x ∈ net.hosts ↔
            net.addr < x ∧ x < net.addr + 2 ^ (32 - net.plen) - 1) ∧
        net.hosts.Pairwise (· < ·)) ∧
    ((PoolRuntime.from_config ⟨fun _ => "", id, id, id⟩
        (AddressPool.mk false [IPv4Net.mk 167772160 30] [] [])).allocN4 0 =
          some "10.0.0.1" ∧
     (PoolRuntime.from_config ⟨fun _ => "", id, id, id⟩
        (AddressPool.mk false [IPv4Net.mk 167772160 30] [] [])).allocN4 1 =
          some "10.0.0.2" ∧
     (PoolRuntime.from_config ⟨fun _ => "", id, id, id⟩
        (AddressPool.mk false [IPv4Net.mk 167772160 30] [] [])).allocN4 2 = none) := by
  refine ⟨?_, ?_, ?_, by decide, by decide, by decide⟩
  · intro a; simp [IPv4Net.hosts]
  · intro a; simp [IPv4Net.hosts]
  · intro net hp
    have h32 : ¬ net.plen ≥ 32 := by omega
    have h31 : ¬ net.plen = 31 := by omega
    have hsize : 4 ≤ 2 ^ (32 - net.plen) := by
      calc (4 : Nat) = 2 ^ 2 := by norm_num
      _ ≤ 2 ^ (32 - net.plen) := Nat.pow_le_pow_right (by norm_num) (by omega)
    constructor
    · intro x
      simp only [IPv4Net.hosts, h32, h31, if_false, List.mem_map, List.mem_range]
      constructor
      · rintro ⟨i, hi, rfl⟩
        omega
      · rintro ⟨h1, h2⟩
        exact ⟨x - net.addr - 1, by omega, by omega⟩
    · simp only [IPv4Net.hosts, h32, h31, if_false]
      exact (List.pairwise_lt_range _).map _ (fun a b hab => by omega)

/-- Witness for C6 at the concrete /30 network. -/
theorem c6_pool_expansion_witness :
    ((167772161 : Nat) ∈ (IPv4Net.mk 167772160 30).hosts ↔
        (167772160 : Nat) < 167772161 ∧ (167772161 : Nat) < 167772160 + 2 ^ (32 - 30) - 1) ∧
    (IPv4Net.mk 167772160 30).hosts.Pairwise (· < ·) := by
  have h := c6_pool_expansion.2.2.1 (IPv4Net.mk 167772160 30) (by decide)
  exact ⟨h.1 167772161, h.2⟩

/-- Splitting a template after a failed part: the builder's answer for
the whole template is the answer for the failing part. -/
theorem build_attributes_append_err (uuidGen : Nat → String) (request : Packet) :
    ∀ (pre rest : Attrs) (pool : Option PoolRuntime) (n : Nat) (attrs0 : Attrs) (m : String)
      (pool1 : Option PoolRuntime) (n1 : Nat),
      build_attributes uuidGen request pre pool n = (attrs0, some m, pool1, n1) →
      build_attributes uuidGen request (pre ++ rest) pool n = (attrs0, some m, pool1, n1) := by
  intro pre
  induction pre with
  | nil =>
    intro rest pool n attrs0 m pool1 n1 h
    simp [build_attributes] at h
  | cons entry pre ih =>
    intro rest pool n attrs0 m pool1 n1 h
    rcases entry with ⟨name, raw⟩
    simp only [build_attributes, List.cons_append] at h ⊢
    rcases hres : resolve_value uuidGen request name raw pool n with ⟨⟨v, e⟩, pool', n'⟩
    rw [hres] at h
    cases e with
    | some err => exact h
    | none =>
      simp only [List.append_eq] at h ⊢
      rcases hpre : build_attributes uuidGen request pre pool' n' with ⟨attrs1, e0, p1, m1⟩
      rw [hpre] at h
      cases e0 with
      | none => simp at h
      | some m0 =>
        simp only [Prod.mk.injEq, Option.some.injEq] at h
        obtain ⟨h1, h2, h3, h4⟩ := h
        rw [ih rest _ _ _ _ _ _ hpre]
        rw [h1, h2, h3, h4]

/-- Splitting a template after a successful part: the builder continues
with the rest from the carried-over state, and prepends the part's
entries only when the rest also succeeds. -/
theorem build_attributes_append_ok (uuidGen : Nat → String) (request : Packet) :
    ∀ (pre rest : Attrs) (pool : Option PoolRuntime) (n : Nat) (attrs0 res : Attrs)
      (e : Option String) (pool1 pool2 : Option PoolRuntime) (n1 n2 : Nat),
      build_attributes uuidGen request pre pool n = (attrs0, none, pool1, n1) →
      build_attributes uuidGen request rest pool1 n1 = (res, e, pool2, n2) →
      build_attributes uuidGen request (pre ++ rest) pool n =
        ((match e with | none => attrs0 ++ res | some _ => res), e, pool2, n2) := by
  intro pre
  induction pre with
  | nil =>
    intro rest pool n attrs0 res e pool1 pool2 n1 n2 h1 h2
    simp only [build_attributes, Prod.mk.injEq] at h1
    obtain ⟨ha, -, hp, hn⟩ := h1
    rw [List.nil_append, hp, hn, h2]
    cases e <;> simp [ha.symm]
  | cons entry pre ih =>
    intro rest pool n attrs0 res e pool1 pool2 n1 n2 h1 h2
    rcases entry with ⟨name, raw⟩
    simp only [build_attributes, List.cons_append] at h1 ⊢
    rcases hres : resolve_value uuidGen request name raw pool n with ⟨⟨v, e'⟩, pool', n'⟩
    rw [hres] at h1
    cases e' with
    | some err => simp at h1
    | none =>
      simp only [List.append_eq] at h1 ⊢
      rcases hpre : build_attributes uuidGen request pre pool' n' with ⟨attrs1, e0, p1, m1⟩
      rw [hpre] at h1
      cases e0 with
      | some m0 => simp at h1
      | none =>
        simp only [Prod.mk.injEq] at h1
        obtain ⟨ha, -, hp, hn⟩ := h1
        rw [hp, hn] at hpre
        rw [ih rest _ _ _ _ _ _ _ _ _ hpre h2]
        cases e with
        | none => simp [ha.symm]
        | some m => rfl

/-- On failure the builder's result map is the single-entry
`Reply-Message` map carrying the message. -/
theorem build_attributes_error_shape (uuidGen : Nat → String) (request : Packet) :
    ∀ (attributes : Attrs) (pool : Option PoolRuntime) (n : Nat) (attrs : Attrs)
      (msg : String) (pool' : Option PoolRuntime) (n' : Nat),
      build_attributes uuidGen request attributes pool n = (attrs, some msg, pool', n') →
      attrs = [("Reply-Message", .str msg)] := by
  intro attributes
  induction attributes with
  | nil => intro pool n attrs msg pool' n' h; simp [build_attributes] at h
  | cons entry rest ih =>
    intro pool n attrs msg pool' n' h
    rcases entry with ⟨name, raw⟩
    simp only [build_attributes] at h
    rcases hres : resolve_value uuidGen request name raw pool n with ⟨⟨v, e⟩, pool1, n1⟩
    rw [hres] at h
    cases e with
    | some err =>
      simp only [Prod.mk.injEq, Option.some.injEq] at h
      obtain ⟨h1, h2, -, -⟩ := h
      rw [← h1, h2]
    | none =>
      simp only [] at h
      rcases hrest : build_attributes uuidGen request rest pool1 n1 with ⟨res, e1, pool2, n2⟩
      rw [hrest] at h
      cases e1 with
      | none => simp at h
      | some m =>
        simp only [Prod.mk.injEq, Option.some.injEq] at h
        obtain ⟨h1, h2, -, -⟩ := h
        rw [← h1, ih _ _ _ _ _ _ hrest, h2]
/-- Claim C4: `build_attributes` evaluates template attributes in
declared order and, on the first directive failure, stops and returns
the pair of the single-entry map {"Reply-Message": msg} and msg, where
msg is exactly "IP Address in pool is exhausted" for pool exhaustion,
"missing avp <Attr> in incoming request" when a fromRequest attribute is
absent from the request, and "unsupported transform '<suffix>' (eval is
disabled)" for any fromRequest suffix other than the empty suffix,
.lower(), .upper(), or .split('<sep>')[<idx>]. -/
theorem c4_build_error_messages (uuidGen : Nat → String) (request : Packet) :
    (∀ (attributes : Attrs) (pool : Option PoolRuntime) (n : Nat) (attrs : Attrs)
        (msg : String) (pool' : Option PoolRuntime) (n' : Nat),
        build_attributes uuidGen request attributes pool n = (attrs, some msg, pool', n') →
        attrs = [("Reply-Message", .str msg)]) ∧
    (∀ (pre post : Attrs) (name : String) (raw : PyVal) (pool : Option PoolRuntime) (n : Nat)
        (attrs0 : Attrs) (pool1 : Option PoolRuntime) (n1 : Nat) (v : Option PyVal)
        (e : String) (pool2 : Option PoolRuntime) (n2 : Nat),
        build_attributes uuidGen request pre pool n = (attrs0, none, pool1, n1) →
        resolve_value uuidGen request name raw pool1 n1 = ((v, some e), pool2, n2) →
        build_attributes uuidGen request (pre ++ (name, raw) :: post) pool n =
          ([("Reply-Message",
              .str (if e = "pool_exhausted" then pool_exhausted_message else e))],
            some (if e = "pool_exhausted" then pool_exhausted_message else e), pool2, n2)) ∧
    (∀ (p : PoolRuntime) (n : Nat), p.ipv4 = [] →
        build_attributes uuidGen request [("Framed-IP-Address", .str "-> fromPool")]
            (some p) n =
          ([("Reply-Message", .str pool_exhausted_message)], some pool_exhausted_message,
            some p, n)) ∧
    pool_exhausted_message = "IP Address in pool is exhausted" ∧
    (∀ (d attr sfx : String), parse_from_request d = some (attr, sfx) →
        request.firstValue attr = none →
        from_request request d =
          (none, some ("missing avp " ++ attr ++ " in incoming request"))) ∧
    (∀ (v sfxRaw : String), pyStrip sfxRaw ≠ "" → pyStrip sfxRaw ≠ ".lower()" →
        pyStrip sfxRaw ≠ ".upper()" → parse_split_suffix (pyStrip sfxRaw) = none →
        apply_safe_transform v sfxRaw =
          .error ("unsupported transform '" ++ pyStrip sfxRaw ++ "' (eval is disabled)")) := by
  refine ⟨build_attributes_error_shape uuidGen request, ?_, ?_, rfl, ?_, ?_⟩
  · intro pre post name raw pool n attrs0 pool1 n1 v e pool2 n2 h1 h2
    have hstep : build_attributes uuidGen request ((name, raw) :: post) pool1 n1 =
        ([("Reply-Message",
            .str (if e = "pool_exhausted" then pool_exhausted_message else e))],
          some (if e = "pool_exhausted" then pool_exhausted_message else e), pool2, n2) := by
      simp only [build_attributes]
      rw [h2]
    have := build_attributes_append_ok uuidGen request pre ((name, raw) :: post) pool n attrs0
      _ _ pool1 pool2 n1 n2 h1 hstep
    simpa using this
  · intro p n hp
    have halloc : p.allocate_ipv4 = (none, p) := by
      simp [PoolRuntime.allocate_ipv4, hp]
    have hsw : pyStartsWith "-> fromPool" "-> " = true := by decide
    have hdir : pyStrip (pyDrop "-> fromPool" 3) = "fromPool" := by decide
    have hres : resolve_value uuidGen request "Framed-IP-Address" (.str "-> fromPool")
        (some p) n = ((none, some "pool_exhausted"), some p, n) := by
      simp only [resolve_value, hsw, if_true, hdir]
      simp [apply_directive, from_pool, halloc]
    simp only [build_attributes]
    rw [hres]
    simp
  · intro d attr sfx hparse hmiss
    unfold from_request
    rw [hparse]
    simp only []
    rw [hmiss]
  · intro v sfxRaw h1 h2 h3 h4
    unfold apply_safe_transform
    simp only [h1, h2, h3, h4, if_false]

/-- Witness for C4 at a concrete template, pool and request. -/
theorem c4_build_error_messages_witness :
    build_attributes (fun _ => "u") (Packet.mk 1 1 [("NAS-IP-Address", .str "1.2.3.4", [])])
        ([("Class", .str "x")] ++ ("Reply-Message", .str "-> fromRequest.User-Name") :: [])
        none 0 =
      ([("Reply-Message", .str "missing avp User-Name in incoming request")],
        some "missing avp User-Name in incoming request", none, 0) ∧
    build_attributes (fun _ => "u") (Packet.mk 1 1 [])
        [("Framed-IP-Address", .str "-> fromPool")] (some (PoolRuntime.mk false [] [] [])) 0 =
      ([("Reply-Message", .str pool_exhausted_message)], some pool_exhausted_message,
        some (PoolRuntime.mk false [] [] []), 0) ∧
    apply_safe_transform "alice" ".strip()" =
      .error ("unsupported transform '" ++ pyStrip ".strip()" ++ "' (eval is disabled)") := by
  refine ⟨?_, ?_, ?_⟩
  · exact (c4_build_error_messages (fun _ => "u") _).2.1 [("Class", .str "x")] []
      "Reply-Message" (.str "-> fromRequest.User-Name") none 0 [("Class", .str "x")] none 0
      none "missing avp User-Name in incoming request" none 0 rfl rfl
  · exact (c4_build_error_messages (fun _ => "u") _).2.2.1 (PoolRuntime.mk false [] [] []) 0 rfl
  · exact (c4_build_error_messages (fun _ => "u") (Packet.mk 1 1 [])).2.2.2.2.2 "alice"
      ".strip()" (by decide) (by decide) (by decide) (by decide)

/-- Claim C5: the `-> fromPool` directive dispatches on the attribute
name (Framed-IP-Address to allocate_ipv4, Framed-IPv6-Prefix to
allocate_ipv6, Delegated-IPv6-Prefix to allocate_ipv6_delegated), any
other name is an error, an allocator `none` is reported as the
distinguished pool-exhausted condition, and a builder without a pool
surfaces exactly "pool missing" in Reply-Message, not the pool-exhausted
message. -/
theorem c5_from_pool_dispatch :
    (∀ (p p' : PoolRuntime) (v : String), p.allocate_ipv4 = (some v, p') →
        from_pool "Framed-IP-Address" (some p) = ((some v, none), some p')) ∧
    (∀ p p' : PoolRuntime, p.allocate_ipv4 = (none, p') →
        from_pool "Framed-IP-Address" (some p) = ((none, some "pool_exhausted"), some p')) ∧
    (∀ (p p' : PoolRuntime) (v : String), p.allocate_ipv6 = (some v, p') →
        from_pool "Framed-IPv6-Prefix" (some p) = ((some v, none), some p')) ∧
    (∀ p p' : PoolRuntime, p.allocate_ipv6 = (none, p') →
        from_pool "Framed-IPv6-Prefix" (some p) = ((none, some "pool_exhausted"), some p')) ∧
    (∀ (p p' : PoolRuntime) (v : String), p.allocate_ipv6_delegated = (some v, p') →
        from_pool "Delegated-IPv6-Prefix" (some p) = ((some v, none), some p')) ∧
    (∀ p p' : PoolRuntime, p.allocate_ipv6_delegated = (none, p') →
        from_pool "Delegated-IPv6-Prefix" (some p) =
          ((none, some "pool_exhausted"), some p')) ∧
    (∀ (name : String) (p : PoolRuntime), name ≠ "Framed-IP-Address" →
        name ≠ "Framed-IPv6-Prefix" → name ≠ "Delegated-IPv6-Prefix" →
        from_pool name (some p) =
          ((none, some ("fromPool not supported for " ++ name)), some p)) ∧
    (∀ name : String, from_pool name none = ((none, some "pool missing"), none)) ∧
    (∀ (uuidGen : Nat → String) (request : Packet) (name : String) (n : Nat),
        build_attributes uuidGen request [(name, .str "-> fromPool")] none n =
          ([("Reply-Message", .str "pool missing")], some "pool missing", none, n)) ∧
    "pool missing" ≠ pool_exhausted_message := by
  refine ⟨?_, ?_, ?_, ?_, ?_, ?_, ?_, ?_, ?_, by decide⟩
  · intro p p' v h; simp [from_pool, h]
  · intro p p' h; simp [from_pool, h]
  · intro p p' v h; simp [from_pool, h]
  · intro p p' h; simp [from_pool, h]
  · intro p p' v h; simp [from_pool, h]
  · intro p p' h; simp [from_pool, h]
  · intro name p h1 h2 h3; simp [from_pool, h1, h2, h3]
  · intro name; rfl
  · intro uuidGen request name n
    have hres : resolve_value uuidGen request name (.str "-> fromPool") none n =
        ((none, some "pool missing"), none, n) := by
      have hsw : pyStartsWith "-> fromPool" "-> " = true := by decide
      have hdir : pyStrip (pyDrop "-> fromPool" 3) = "fromPool" := by decide
      simp only [resolve_value, hsw, if_true, hdir]
      simp [apply_directive, from_pool]
    simp only [build_attributes]
    rw [hres]
    simp

/-- Witness for C5 at concrete pools. -/
theorem c5_from_pool_dispatch_witness :
    from_pool "Framed-IP-Address" (some (PoolRuntime.mk false [167772161] [] [])) =
      ((some "10.0.0.1", none), some (PoolRuntime.mk false [] [] [])) ∧
    from_pool "Framed-IP-Address" (some (PoolRuntime.mk false [] [] [])) =
      ((none, some "pool_exhausted"), some (PoolRuntime.mk false [] [] [])) ∧
    from_pool "Class" (some (PoolRuntime.mk false [] [] [])) =
      ((none, some ("fromPool not supported for " ++ "Class")),
        some (PoolRuntime.mk false [] [] [])) := by
  refine ⟨?_, ?_, ?_⟩
  · exact c5_from_pool_dispatch.1 _ _ "10.0.0.1" rfl
  · exact c5_from_pool_dispatch.2.1 _ _ rfl
  · exact c5_from_pool_dispatch.2.2.2.2.2.2.1 "Class" _ (by decide) (by decide) (by decide)

/-- `select_reply` on the literal category "auth". -/
theorem select_reply_auth {V : Type} (search : String → String → Bool) (toStr : V → String)
    (e : MatchEngine) (request : PyRequest V) (default : String) :
    MatchEngine.select_reply search toStr e "auth" request default =
      .ok (match_rules search toStr e.reply_match_rules_auth request default) := rfl

/-- `select_reply` on the literal category "acct". -/
theorem select_reply_acct {V : Type} (search : String → String → Bool) (toStr : V → String)
    (e : MatchEngine) (request : PyRequest V) (default : String) :
    MatchEngine.select_reply search toStr e "acct" request default =
      .ok (match_rules search toStr e.reply_match_rules_acct request default) := by
  simp [MatchEngine.select_reply]

/-- `_handle_auth` when the selected auth reply definition is absent. -/
theorem handle_auth_missing (search : String → String → Bool) (b : RadiusBackend)
    (request : Packet)
    (h : lookupA b.reply_definitions_auth
        (match_rules search pyStr b.match_engine.reply_match_rules_auth request.toPy
          "default") = none) :
    handle_auth search b request = ((none, none), b) := by
  simp only [handle_auth, select_reply_auth]
  rw [h]

/-- `_handle_auth` when a definition is found: the builder's outcome
decides between the definition's code and an Access-Reject. -/
theorem handle_auth_built (search : String → String → Bool) (b : RadiusBackend)
    (request : Packet) (rd : ReplyDef) (attrs : Attrs) (err : Option String)
    (pool' : Option PoolRuntime) (n' : Nat)
    (hdef : lookupA b.reply_definitions_auth
        (match_rules search pyStr b.match_engine.reply_match_rules_auth request.toPy
          "default") = some rd)
    (hbuild : build_attributes b.uuidGen request rd.attributes
        (lookupA b.pool_runtimes
          (MatchEngine.select_pool search pyStr b.match_engine request.toPy "default"))
        b.uuidCount = (attrs, err, pool', n')) :
    handle_auth search b request =
      (((match err with | some _ => some 3 | none => some rd.code), some attrs),
        { b with
            pool_runtimes := set_pool b.pool_runtimes
              (MatchEngine.select_pool search pyStr b.match_engine request.toPy "default")
              pool'
            uuidCount := n' }) := by
  simp only [handle_auth, select_reply_auth]
  rw [hdef]
  simp only [hbuild]
  cases err <;> rfl

/-- `_handle_acct` when the selected acct reply definition is absent. -/
theorem handle_acct_missing (search : String → String → Bool) (b : RadiusBackend)
    (request : Packet)
    (h : lookupA b.reply_definitions_acct
        (match_rules search pyStr b.match_engine.reply_match_rules_acct request.toPy
          "default") = none) :
    handle_acct search b request = ((none, none), b) := by
  simp only [handle_acct, select_reply_acct]
  rw [h]

/-- `_handle_acct` when a definition is found: the literal template is
passed through unchanged. -/
theorem handle_acct_found (search : String → String → Bool) (b : RadiusBackend)
    (request : Packet) (rd : ReplyDef)
    (h : lookupA b.reply_definitions_acct
        (match_rules search pyStr b.match_engine.reply_match_rules_acct request.toPy
          "default") = some rd) :
    handle_acct search b request = ((some rd.code, some rd.attributes), b) := by
  simp only [handle_acct, select_reply_acct]
  rw [h]

/-- `handle_request` is its dispatch followed by the store phase. -/
theorem handle_request_store_phase (search : String → String → Bool) (b : RadiusBackend)
    (request : Packet) (addr : String × Nat) (rc : Option Nat) (ra : Option Attrs)
    (b' : RadiusBackend)
    (hd : (if request.code = 1 then handle_auth search b request
           else if request.code = 4 then handle_acct search b request
           else ((none, none), b)) = ((rc, ra), b')) :
    handle_request search b request addr =
      match store_phase b'.redis_store request addr rc ra with
      | .error e => .error e
      | .ok tok => .ok (⟨rc, ra, tok⟩, b') := by
  unfold handle_request
  rw [hd]

/-- The store phase without a configured store yields no token. -/
theorem store_phase_none (request : Packet) (addr : String × Nat) (rc : Option Nat)
    (ra : Option Attrs) : store_phase none request addr rc ra = .ok none := rfl

/-- The store phase with a configured store whose write succeeds yields
the built token. -/
theorem store_phase_ok (s : RedisDialogStore) (request : Packet) (addr : String × Nat)
    (rc : Option Nat) (ra : Option Attrs) (hw : s.writeResult = .ok ()) :
    store_phase (some s) request addr rc ra =
      .ok (some (build_token s (select_suffix_keys s request) request
        (match rc with
         | none => none
         | some c => some (packet_view c request.id (ra.getD []))))) := by
  simp only [store_phase, store_dialog, hw]

/-- The store phase with a configured store whose write raises
propagates the error. -/
theorem store_phase_err (s : RedisDialogStore) (request : Packet) (addr : String × Nat)
    (rc : Option Nat) (ra : Option Attrs) (hw : s.writeResult = .error ()) :
    store_phase (some s) request addr rc ra = .error () := by
  simp only [store_phase, store_dialog, hw]

/-- Claim C2 (amended: the dialog token is `none` exactly when no store
is configured; with a configured store whose write succeeds, it is the
token under which the dialog was persisted): `handle_request` dispatches
on the request code — for code 1 it selects pool and auth reply; an
absent auth definition yields reply code and attributes `none`; a
builder error yields reply code 3 with the builder's map; success yields
the definition's code and the built attributes; for code 4 it returns
the matched acct definition's code and its literal attributes unchanged
(no directive expansion), or `none`s when the definition is missing; any
other code yields `none`s. -/
theorem c2_handle_request_dispatch (search : String → String → Bool) (b : RadiusBackend)
    (request : Packet) (addr : String × Nat) :
    (request.code ≠ 1 → request.code ≠ 4 →
        handle_request search b request addr =
          match store_phase b.redis_store request addr none none with
          | .error e => .error e
          | .ok tok => .ok (⟨none, none, tok⟩, b)) ∧
    (request.code = 1 →
        lookupA b.reply_definitions_auth
          (match_rules search pyStr b.match_engine.reply_match_rules_auth request.toPy
            "default") = none →
        handle_request search b request addr =
          match store_phase b.redis_store request addr none none with
          | .error e => .error e
          | .ok tok => .ok (⟨none, none, tok⟩, b)) ∧
    (request.code = 1 → ∀ (rd : ReplyDef) (attrs : Attrs) (m : String)
        (pool' : Option PoolRuntime) (n' : Nat),
        lookupA b.reply_definitions_auth
          (match_rules search pyStr b.match_engine.reply_match_rules_auth request.toPy
            "default") = some rd →
        build_attributes b.uuidGen request rd.attributes
          (lookupA b.pool_runtimes
            (MatchEngine.select_pool search pyStr b.match_engine request.toPy "default"))
          b.uuidCount = (attrs, some m, pool', n') →
        handle_request search b request addr =
          match store_phase b.redis_store request addr (some 3) (some attrs) with
          | .error e => .error e
          | .ok tok =>
            .ok (⟨some 3, some attrs, tok⟩,
              { b with
                  pool_runtimes := set_pool b.pool_runtimes
                    (MatchEngine.select_pool search pyStr b.match_engine request.toPy
                      "default") pool'
                  uuidCount := n' })) ∧
    (request.code = 1 → ∀ (rd : ReplyDef) (attrs : Attrs)
        (pool' : Option PoolRuntime) (n' : Nat),
        lookupA b.reply_definitions_auth
          (match_rules search pyStr b.match_engine.reply_match_rules_auth request.toPy
            "default") = some rd →
        build_attributes b.uuidGen request rd.attributes
          (lookupA b.pool_runtimes
            (MatchEngine.select_pool search pyStr b.match_engine request.toPy "default"))
          b.uuidCount = (attrs, none, pool', n') →
        handle_request search b request addr =
          match store_phase b.redis_store request addr (some rd.code) (some attrs) with
          | .error e => .error e
          | .ok tok =>
            .ok (⟨some rd.code, some attrs, tok⟩,
              { b with
                  pool_runtimes := set_pool b.pool_runtimes
                    (MatchEngine.select_pool search pyStr b.match_engine request.toPy
                      "default") pool'
                  uuidCount := n' })) ∧
    (request.code = 4 →
        lookupA b.reply_definitions_acct
          (match_rules search pyStr b.match_engine.reply_match_rules_acct request.toPy
            "default") = none →
        handle_request search b request addr =
          match store_phase b.redis_store request addr none none with
          | .error e => .error e
          | .ok tok => .ok (⟨none, none, tok⟩, b)) ∧
    (request.code = 4 → ∀ rd : ReplyDef,
        lookupA b.reply_definitions_acct
          (match_rules search pyStr b.match_engine.reply_match_rules_acct request.toPy
            "default") = some rd →
        handle_request search b request addr =
          match store_phase b.redis_store request addr (some rd.code)
              (some rd.attributes) with
          | .error e => .error e
          | .ok tok => .ok (⟨some rd.code, some rd.attributes, tok⟩, b)) ∧
    (∀ (rc : Option Nat) (ra : Option Attrs),
        store_phase none request addr rc ra = .ok none) ∧
    (∀ (s : RedisDialogStore) (rc : Option Nat) (ra : Option Attrs),
        s.writeResult = .ok () →
        store_phase (some s) request addr rc ra =
          .ok (some (build_token s (select_suffix_keys s request) request
            (match rc with
             | none => none
             | some c => some (packet_view c request.id (ra.getD [])))))) := by
  refine ⟨?_, ?_, ?_, ?_, ?_, ?_, fun rc ra => rfl, fun s rc ra hw => store_phase_ok s _ _ _ _ hw⟩
  · intro h1 h4
    exact handle_request_store_phase search b request addr none none b
      (by rw [if_neg h1, if_neg h4])
  · intro h1 hmiss
    exact handle_request_store_phase search b request addr none none b
      (by rw [if_pos h1, handle_auth_missing search b request hmiss])
  · intro h1 rd attrs m pool' n' hdef hbuild
    exact handle_request_store_phase search b request addr (some 3) (some attrs)
      { b with
          pool_runtimes := set_pool b.pool_runtimes
            (MatchEngine.select_pool search pyStr b.match_engine request.toPy "default") pool'
          uuidCount := n' }
      (by rw [if_pos h1, handle_auth_built search b request rd attrs (some m) pool' n'
        hdef hbuild])
  · intro h1 rd attrs pool' n' hdef hbuild
    exact handle_request_store_phase search b request addr (some rd.code) (some attrs)
      { b with
          pool_runtimes := set_pool b.pool_runtimes
            (MatchEngine.select_pool search pyStr b.match_engine request.toPy "default") pool'
          uuidCount := n' }
      (by rw [if_pos h1, handle_auth_built search b request rd attrs none pool' n'
        hdef hbuild])
  · intro h4 hmiss
    by_cases h1 : request.code = 1
    · omega
    · exact handle_request_store_phase search b request addr none none b
        (by rw [if_neg h1, if_pos h4, handle_acct_missing search b request hmiss])
  · intro h4 rd hdef
    by_cases h1 : request.code = 1
    · omega
    · exact handle_request_store_phase search b request addr (some rd.code)
        (some rd.attributes) b
        (by rw [if_neg h1, if_pos h4, handle_acct_found search b request rd hdef])

/-- Claim C2 counterexample: with a configured dialog store, a request
of an unhandled code yields a BackendResult whose dialog token is the
stored token, not `none` — the claim's "all three fields none" fails. -/
theorem c2_counterexample :
    handle_request (fun _ _ => false) (sampleBackend (some sampleStoreOk))
        (Packet.mk 2 5 []) ("127.0.0.1", 1) =
      .ok (⟨none, none, some "p."⟩, sampleBackend (some sampleStoreOk)) ∧
    (some "p." : Option String) ≠ none := ⟨rfl, by decide⟩

/-- Witness for C2 at a concrete backend. -/
theorem c2_handle_request_dispatch_witness :
    handle_request (fun _ _ => false) (sampleBackend none) (Packet.mk 2 5 [])
        ("127.0.0.1", 1) = .ok (⟨none, none, none⟩, sampleBackend none) ∧
    store_phase (some sampleStoreOk) (Packet.mk 1 99 []) ("127.0.0.1", 1) none none =
      .ok (some "p.") ∧
    handle_request (fun _ _ => false) (sampleAcctBackend none)
        (Packet.mk 4 9 [("User-Name", .str "alice", [])]) ("127.0.0.1", 1) =
      .ok (⟨some 5, some [], none⟩, sampleAcctBackend none) := by
  refine ⟨?_, ?_, ?_⟩
  · exact (c2_handle_request_dispatch (fun _ _ => false) (sampleBackend none)
      (Packet.mk 2 5 []) ("127.0.0.1", 1)).1 (by decide) (by decide)
  · exact (c2_handle_request_dispatch (fun _ _ => false) (sampleBackend none)
      (Packet.mk 1 99 []) ("127.0.0.1", 1)).2.2.2.2.2.2.2 sampleStoreOk none none rfl
  · exact (c2_handle_request_dispatch (fun _ _ => false) (sampleAcctBackend none)
      (Packet.mk 4 9 [("User-Name", .str "alice", [])]) ("127.0.0.1", 1)).2.2.2.2.2.1
      rfl ⟨5, []⟩ rfl

/-- `_handle_auth` never changes the configured dialog store. -/
theorem handle_auth_preserves_store (search : String → String → Bool) (b : RadiusBackend)
    (request : Packet) :
    ((handle_auth search b request).2).redis_store = b.redis_store := by
  simp only [handle_auth, select_reply_auth]
  rcases hl : lookupA b.reply_definitions_auth
      (match_rules search pyStr b.match_engine.reply_match_rules_auth request.toPy
        "default") with _ | rd
  · rfl
  · simp only []
    rcases hb : build_attributes b.uuidGen request rd.attributes
        (lookupA b.pool_runtimes
          (MatchEngine.select_pool search pyStr b.match_engine request.toPy "default"))
        b.uuidCount with ⟨attrs, err, pool', n'⟩
    cases err <;> rfl

/-- `_handle_acct` never changes the configured dialog store. -/
theorem handle_acct_preserves_store (search : String → String → Bool) (b : RadiusBackend)
    (request : Packet) :
    ((handle_acct search b request).2).redis_store = b.redis_store := by
  simp only [handle_acct, select_reply_acct]
  rcases hl : lookupA b.reply_definitions_acct
      (match_rules search pyStr b.match_engine.reply_match_rules_acct request.toPy
        "default") with _ | rd <;> rfl

/-- Claim C9 (amended: a failing dialog-store write propagates as an
exception out of `handle_request` — no BackendResult is produced — and
the UDP server catches the backend exception and discards the datagram
without encoding or sending any reply). -/
theorem c9_store_failure_propagates (search : String → String → Bool) (b : RadiusBackend)
    (request : Packet) (addr : String × Nat) (s : RedisDialogStore)
    (hs : b.redis_store = some s) (hw : s.writeResult = .error ()) :
    handle_request search b request addr = .error () ∧
    (∀ (decode : List Nat → Except Unit Packet)
        (encode : Nat → Attrs → Packet → Except Unit (List Nat)) (data : List Nat),
        decode data = .ok request →
        handle_datagram decode
          (fun r => (handle_request search b r addr).map Prod.fst) encode data = none) := by
  have hmain : handle_request search b request addr = .error () := by
    rcases hd : (if request.code = 1 then handle_auth search b request
                 else if request.code = 4 then handle_acct search b request
                 else ((none, none), b)) with ⟨⟨rc, ra⟩, b'⟩
    have hps : b'.redis_store = some s := by
      have : b'.redis_store = b.redis_store := by
        by_cases h1 : request.code = 1
        · rw [if_pos h1] at hd
          have := handle_auth_preserves_store search b request
          rw [hd] at this
          exact this
        · by_cases h4 : request.code = 4
          · rw [if_neg h1, if_pos h4] at hd
            have := handle_acct_preserves_store search b request
            rw [hd] at this
            exact this
          · rw [if_neg h1, if_neg h4] at hd
            cases hd
            rfl
      rw [this, hs]
    rw [handle_request_store_phase search b request addr rc ra b' hd, hps,
      store_phase_err s request addr rc ra hw]
  refine ⟨hmain, ?_⟩
  intro decode encode data hdec
  simp only [handle_datagram, hdec, hmain]
  rfl

/-- Claim C9 counterexample: at a concrete backend whose acct template
would produce reply code 5, a failing store write makes `handle_request`
raise (so no BackendResult with a `none` token is returned) and the
server sends nothing, although the same datagram with a healthy store
yields reply code 5 — the failure does block reply emission. -/
theorem c9_counterexample :
    handle_request (fun _ _ => false) (sampleAcctBackend (some sampleStoreErr))
        (Packet.mk 4 9 [("User-Name", .str "alice", [])]) ("127.0.0.1", 1) = .error () ∧
    handle_datagram (fun _ => .ok (Packet.mk 4 9 [("User-Name", .str "alice", [])]))
        (fun r => (handle_request (fun _ _ => false)
          (sampleAcctBackend (some sampleStoreErr)) r ("127.0.0.1", 1)).map Prod.fst)
        (fun _ _ _ => .ok [1, 2, 3]) [0] = none ∧
    handle_request (fun _ _ => false) (sampleAcctBackend (some sampleStoreOk))
        (Packet.mk 4 9 [("User-Name", .str "alice", [])]) ("127.0.0.1", 1) =
      .ok (⟨some 5, some [], some "p.alice"⟩, sampleAcctBackend (some sampleStoreOk)) := by
  exact ⟨rfl, rfl, rfl⟩

/-- Witness for C9 at the concrete failing store. -/
theorem c9_store_failure_propagates_witness :
    handle_request (fun _ _ => false) (sampleBackend (some sampleStoreErr))
        (Packet.mk 2 5 []) ("127.0.0.1", 1) = .error () ∧
    handle_datagram (fun _ => .ok (Packet.mk 2 5 []))
        (fun r => (handle_request (fun _ _ => false) (sampleBackend (some sampleStoreErr)) r
          ("127.0.0.1", 1)).map Prod.fst) (fun _ _ _ => .ok []) [0] = none := by
  have h := c9_store_failure_propagates (fun _ _ => false)
    (sampleBackend (some sampleStoreErr)) (Packet.mk 2 5 []) ("127.0.0.1", 1)
    sampleStoreErr rfl rfl
  exact ⟨h.1, h.2 _ _ [0] rfl⟩

/-- The token-part loop is the mapped specification reading. -/
theorem token_parts_eq_map (request : Packet) (reply : Option Packet) :
    ∀ keys : List String,
      token_parts request reply keys = keys.map (token_part_spec request reply) := by
  intro keys
  induction keys with
  | nil => rfl
  | cons key rest ih =>
    simp only [token_parts, List.map_cons, ih]
    congr 1
    by_cases hc : key = "code"
    · simp [token_part_spec, hc]
    · by_cases hi : key = "id"
      · simp [token_part_spec, hc, hi]
      · simp only [token_part_spec, hc, hi, if_false]
        cases hf : store_first_attr_value request key
        · cases reply <;> simp
        · simp

/-- Claim C7: `store_dialog` builds the persistence key by selecting the
attribute-name list for the request code (1 auth, 4 acct, 43 coa, 40
disc, otherwise the empty list so the token is the prefix alone), then
mapping each name in order ("code" to the decimal request code, "id" to
the decimal request id, otherwise the stringified first value from the
request, else from the reply when one exists, else the empty string),
joining the parts with "__" and prepending the configured prefix; keys
["code","id"], prefix "x.", request code 1 and id 99 yield "x.1__99". -/
theorem c7_dialog_token :
    (∀ (store : RedisDialogStore) (request : Packet),
        (request.code = 1 → select_suffix_keys store request = store.store_auth_keys) ∧
        (request.code = 4 → select_suffix_keys store request = store.store_acct_keys) ∧
        (request.code = 43 → select_suffix_keys store request = store.store_coa_keys) ∧
        (request.code = 40 → select_suffix_keys store request = store.store_disc_keys) ∧
        (request.code ≠ 1 → request.code ≠ 4 → request.code ≠ 43 → request.code ≠ 40 →
          select_suffix_keys store request = [])) ∧
    (∀ (store : RedisDialogStore) (keys : List String) (request : Packet)
        (reply : Option Packet),
        build_token store keys request reply = token_spec store keys request reply) ∧
    (∀ (store : RedisDialogStore) (request : Packet) (reply : Option Packet),
        request.code ≠ 1 → request.code ≠ 4 → request.code ≠ 43 → request.code ≠ 40 →
        build_token store (select_suffix_keys store request) request reply =
          store.keyPfx) ∧
    store_dialog sampleStoreCodeId (Packet.mk 1 99 []) none ("127.0.0.1", 1) =
      .ok ("x.1__99",
        [RedisOp.rpush "x.1__99"
          (Dialog.mk
            [("_code", .i 1), ("_id", .i 99), ("_host", .s "127.0.0.1"), ("_port", .i 1)]
            [("_code", .null), ("_ts", .i 0), ("_tsStr", .s "ts"), ("_id", .null)]),
         RedisOp.expire "x.1__99" 600]) := by
  refine ⟨?_, ?_, ?_, rfl⟩
  · intro store request
    refine ⟨fun h => by simp [select_suffix_keys, h], fun h => by simp [select_suffix_keys, h],
      fun h => by simp [select_suffix_keys, h], fun h => by simp [select_suffix_keys, h],
      fun h1 h4 h43 h40 => by simp [select_suffix_keys, h1, h4, h43, h40]⟩
  · intro store keys request reply
    simp [build_token, token_spec, token_parts_eq_map]
  · intro store request reply h1 h4 h43 h40
    simp [build_token, select_suffix_keys, h1, h4, h43, h40, token_parts,
      String.intercalate]

/-- Witness for C7 at concrete codes. -/
theorem c7_dialog_token_witness :
    select_suffix_keys sampleStoreCodeId (Packet.mk 4 2 []) =
      sampleStoreCodeId.store_acct_keys ∧
    select_suffix_keys sampleStoreCodeId (Packet.mk 7 2 []) = [] ∧
    build_token sampleStoreCodeId (select_suffix_keys sampleStoreCodeId (Packet.mk 7 2 []))
        (Packet.mk 7 2 []) none = sampleStoreCodeId.keyPfx := by
  refine ⟨?_, ?_, ?_⟩
  · exact (c7_dialog_token.1 sampleStoreCodeId (Packet.mk 4 2 [])).2.1 rfl
  · exact (c7_dialog_token.1 sampleStoreCodeId (Packet.mk 7 2 [])).2.2.2.2
      (by decide) (by decide) (by decide) (by decide)
  · exact c7_dialog_token.2.2.1 sampleStoreCodeId (Packet.mk 7 2 []) none
      (by decide) (by decide) (by decide) (by decide)

/-- Claim C8 counterexample: `_reply_to_dict` applies no replacement, so
a reply packet carrying a User-Password is persisted by `store_dialog`
with the cleartext value in the dialog payload. -/
theorem c8_counterexample :
    store_dialog sampleStoreOk (Packet.mk 1 7 [("User-Name", .str "u", [])])
        (some (Packet.mk 2 7 [("User-Password", .str "secret", [])])) ("127.0.0.1", 1) =
      .ok ("p.u",
        [RedisOp.rpush "p.u"
          (Dialog.mk
            [("_code", .i 1), ("_id", .i 7), ("_host", .s "127.0.0.1"), ("_port", .i 1),
              ("User-Name", .s "u")]
            [("_code", .i 2), ("_ts", .i 0), ("_tsStr", .s "ts"), ("_id", .i 7),
              ("User-Password", .s "secret")]),
         RedisOp.expire "p.u" 10]) ∧
    JVal.s "secret" ≠ JVal.s "encryptedValue" := by
  refine ⟨rfl, by simp⟩

/-- Claim C8 (amended: the replacement holds for the request snapshot —
`_packet_to_dict` maps every User-Password entry to the literal
"encryptedValue", so the request snapshot is independent of the carried
password — while `_reply_to_dict` persists reply attributes as-is): the
rpush payload of `store_dialog` is exactly the pair of these two
snapshots. -/
theorem c8_password_masking :
    (∀ (packet : Packet) (addr : String × Nat) (x : JVal),
        ("User-Password", x) ∈ packet_to_dict packet addr → x = .s "encryptedValue") ∧
    (∀ (code packet_id : Nat) (pre post : List (String × PyVal × List PyVal))
        (v v' : PyVal) (rest rest' : List PyVal) (addr : String × Nat),
        packet_to_dict (Packet.mk code packet_id (pre ++ ("User-Password", v, rest) :: post))
            addr =
          packet_to_dict
            (Packet.mk code packet_id (pre ++ ("User-Password", v', rest') :: post)) addr) ∧
    (∀ (s : RedisDialogStore) (request : Packet) (reply : Option Packet)
        (addr : String × Nat) (tok : String) (ops : List RedisOp),
        store_dialog s request reply addr = .ok (tok, ops) →
        ops = [RedisOp.rpush tok
            (Dialog.mk (packet_to_dict request addr)
              (reply_to_dict s.nowMs s.tsStr reply)),
          RedisOp.expire tok s.expiry_seconds]) := by
  refine ⟨?_, ?_, ?_⟩
  · intro packet addr x hmem
    simp only [packet_to_dict, List.mem_append] at hmem
    rcases hmem with h | h
    · simp at h
    · simp only [List.mem_map] at h
      obtain ⟨e, hin, he⟩ := h
      by_cases h1 : e.1 = "User-Password"
      · rw [if_pos h1] at he
        have := congrArg Prod.snd he
        simpa using this.symm
      · rw [if_neg h1] at he
        exfalso
        apply h1
        cases hv : e.2.2 with
        | nil => rw [hv] at he; exact congrArg Prod.fst he
        | cons y ys => rw [hv] at he; exact congrArg Prod.fst he
  · intro code packet_id pre post v v' rest rest' addr
    simp [packet_to_dict]
  · intro s request reply addr tok ops h
    simp only [store_dialog] at h
    cases hw : s.writeResult with
    | error e => rw [hw] at h; exact absurd h (by simp)
    | ok u =>
      rw [hw] at h
      simp only [Except.ok.injEq, Prod.mk.injEq] at h
      obtain ⟨h1, h2⟩ := h
      rw [← h2, h1]

/-- Witness for C8 at a concrete request snapshot. -/
theorem c8_password_masking_witness :
    (("User-Password", JVal.s "encryptedValue") ∈
        packet_to_dict (Packet.mk 1 7 [("User-Password", .str "secret", [])])
          ("127.0.0.1", 1)) ∧
    JVal.s "encryptedValue" = JVal.s "encryptedValue" ∧
    [RedisOp.rpush "p."
        (Dialog.mk
          [("_code", .i 1), ("_id", .i 7), ("_host", .s "127.0.0.1"), ("_port", .i 1)]
          [("_code", .null), ("_ts", .i 0), ("_tsStr", .s "ts"), ("_id", .null)]),
      RedisOp.expire "p." 10] =
      [RedisOp.rpush "p."
          (Dialog.mk (packet_to_dict (Packet.mk 1 7 []) ("127.0.0.1", 1))
            (reply_to_dict sampleStoreOk.nowMs sampleStoreOk.tsStr none)),
        RedisOp.expire "p." sampleStoreOk.expiry_seconds] := by
  have hmem : ("User-Password", JVal.s "encryptedValue") ∈
      packet_to_dict (Packet.mk 1 7 [("User-Password", .str "secret", [])])
        ("127.0.0.1", 1) := by
    simp [packet_to_dict]
  exact ⟨hmem, c8_password_masking.1 _ ("127.0.0.1", 1) _ hmem,
    c8_password_masking.2.2 sampleStoreOk (Packet.mk 1 7 []) none ("127.0.0.1", 1) "p."
      _ rfl⟩
